import Mathlib

/-!
# Snowflake firmware: the coordinator of `application.cpp`

A shallow embedding of `src/firmware/snowflake/src/application.cpp`:
the globals of the translation unit become the fields of `State`, one pass of
`loop()` becomes the function `loop`, the two callbacks become functions on
`State`, and every call into a collaborator (LED strip, MP3 player, tone
player, settings file, logger) is recorded as an `Effect`.

`mode` is an `int`-valued enumeration: `mode + 1` wraps at 32 bits and `%` is
the truncating remainder of C++. An access `songs[songIndex]` outside the
vector (which also covers `% songs.size()` with an empty vector) has no defined
result: `loop` returns `none`. The enumerators of `RgbStrip::MODES_T` are
declared in a header that is not part of the sources and are parameters
(`ModeTable`); only well-formed tables describe an enumeration.
-/

namespace Snowflake

/-! ## The enumeration `RgbStrip::MODES_T` -/

/-- Modelled from the spec: the enumerators of `RgbStrip::MODES_T` used by
`application.cpp`. `RgbStrip.h` is not part of the sources, so the numeric
values are parameters of the development. -/
structure ModeTable where
  MODE_OFF : Int
  MODE_SNOWFLAKE : Int
  MODE_SPARKLE : Int
  MODE_MAX : Int
deriving DecidableEq, Repr

/-- The three named enumerators are distinct values of `0 .. MODE_MAX-1`, and
`MODE_MAX` is an `int` enumerator (at most `INT_MAX`). -/
def ModeTable.WellFormed (T : ModeTable) : Prop :=
  0 ≤ T.MODE_OFF ∧ T.MODE_OFF < T.MODE_MAX ∧
  0 ≤ T.MODE_SNOWFLAKE ∧ T.MODE_SNOWFLAKE < T.MODE_MAX ∧
  0 ≤ T.MODE_SPARKLE ∧ T.MODE_SPARKLE < T.MODE_MAX ∧
  T.MODE_OFF ≠ T.MODE_SNOWFLAKE ∧ T.MODE_OFF ≠ T.MODE_SPARKLE ∧
  T.MODE_SNOWFLAKE ≠ T.MODE_SPARKLE ∧
  T.MODE_MAX ≤ 2147483647

instance (T : ModeTable) : Decidable T.WellFormed := by
  unfold ModeTable.WellFormed; infer_instance

/-- Modelled from the spec: the order of the enumerators given in the data
model, `{OFF, SNOWFLAKE, ..., SPARKLE, MODE_MAX}`: `MODE_OFF` is first,
`MODE_SNOWFLAKE` second and `MODE_SPARKLE` last before the sentinel. -/
def ModeTable.SpecOrder (T : ModeTable) : Prop :=
  T.MODE_OFF = 0 ∧ T.MODE_SNOWFLAKE = 1 ∧ T.MODE_SPARKLE = T.MODE_MAX - 1 ∧
  3 ≤ T.MODE_MAX ∧ T.MODE_MAX ≤ 2147483647

instance (T : ModeTable) : Decidable T.SpecOrder := by
  unfold ModeTable.SpecOrder; infer_instance

/-- A selectable mode: a value of `0 .. MODE_MAX-1` other than `MODE_OFF` and
`MODE_SPARKLE`. -/
def ModeTable.selectable (T : ModeTable) (m : Int) : Prop :=
  0 ≤ m ∧ m < T.MODE_MAX ∧ m ≠ T.MODE_OFF ∧ m ≠ T.MODE_SPARKLE

instance (T : ModeTable) (m : Int) : Decidable (T.selectable m) := by
  unfold ModeTable.selectable; infer_instance

/-- The table of the scenario of the spec: selectable modes SNOWFLAKE (1) and
RAINBOW (2). -/
def scenarioModes : ModeTable :=
  { MODE_OFF := 0, MODE_SNOWFLAKE := 1, MODE_SPARKLE := 3, MODE_MAX := 4 }

/-! ## Machine integers and the text conversions of Device OS -/

/-- Two's-complement wrap of an `int` result (32 bits). -/
def wrapInt32 (x : Int) : Int := (x + 2147483648) % 4294967296 - 2147483648

/-- The range of `long` (32 bits), to which `strtol` saturates. -/
def clampLong (x : Int) : Int := max (-2147483648) (min x 2147483647)

/-- The character of a decimal digit, `'0' + d`. -/
def digitChar (d : Nat) : Char := Char.ofNat (48 + d)

/-- The decimal digits of a natural number, most significant first; `fuel`
bounds the number of digits. -/
def utoaFuel : Nat → Nat → List Char
  | 0, _ => []
  | fuel + 1, n =>
    if n < 10 then [digitChar n] else utoaFuel fuel (n / 10) ++ [digitChar (n % 10)]

/-- The decimal digits of `n`. -/
def utoa (n : Nat) : List Char := utoaFuel (n + 1) n

/-- The characters of `itoa(value, buf, 10)`. -/
def itoa (value : Int) : List Char :=
  if value < 0 then '-' :: utoa value.natAbs else utoa value.toNat

/-- The constructor `String(int value)` of Device OS: the decimal text of
`value`. -/
def String_ofInt (value : Int) : String := String.mk (itoa value)

/-- The predicate `isspace` of the C locale. -/
def isSpace (c : Char) : Bool :=
  c = ' ' || (9 ≤ c.toNat && c.toNat ≤ 13)

/-- The value of a digit character. -/
def digitVal (c : Char) : Nat := c.toNat - 48

/-- The number read from the leading decimal digits of the text, starting
from the accumulator `acc`. -/
def atolDigits : List Char → Nat → Nat
  | [], acc => acc
  | c :: cs, acc => if c.isDigit then atolDigits cs (acc * 10 + digitVal c) else acc

/-- The function `atol` of the C library: leading white space is skipped, an
optional sign is read, then the leading digits; text without digits reads as
`0`, and the result saturates to the range of `long`. -/
def atol (cs : List Char) : Int :=
  match cs.dropWhile isSpace with
  | [] => 0
  | c :: rest =>
    if c = '-' then clampLong (-(atolDigits rest 0 : Int))
    else if c = '+' then clampLong (atolDigits rest 0)
    else clampLong (atolDigits (c :: rest) 0)

/-- The method `String::toInt()` of Device OS, which is `atol` on the buffer. -/
def toInt (s : String) : Int := atol s.data

/-- The method `String::endsWith`. -/
def endsWith (s suffix : String) : Bool := suffix.data.isSuffixOf s.data

/-! ## Collaborators: settings file and recorded calls -/

/-- Modelled from the spec: the Persistent Mode Store (`Settings`, whose code
is not part of the sources): `get(key)`, `set(key, value)` on the values held
in memory, `store()` flushing them to the durable copy, which `init()` loads
at startup. An absent key reads as the empty string. -/
structure Settings where
  values : List (String × String)
  flash : List (String × String)
deriving DecidableEq, Repr

/-- Load the durable copy: `settings.init()`. -/
def Settings.init (st : Settings) : Settings := { st with values := st.flash }

/-- Lookup in a key/value list, the empty string when the key is absent. -/
def kvGet : List (String × String) → String → String
  | [], _ => ""
  | (k, v) :: rest, key => if k = key then v else kvGet rest key

/-- Read a value: `settings.get(key)`. -/
def Settings.get (st : Settings) (key : String) : String := kvGet st.values key

/-- Write a value in memory: `settings.set(key, value)`. -/
def Settings.set (st : Settings) (key value : String) : Settings :=
  { st with values := (key, value) :: st.values.filter (fun p => p.1 ≠ key) }

/-- Flush to the durable copy: `settings.store()`. -/
def Settings.store (st : Settings) : Settings := { st with flash := st.values }

/-- A call into a collaborator, in the order in which the code makes it. -/
inductive Effect where
  | buttonUpdate
  | watchdogRefresh
  | setMode (m : Int)
  | mp3Play (file : String) (volume : Nat)
  | tonePlay
  | settingsSet (key value : String)
  | settingsStore
  | logInfo (msg : String)
deriving DecidableEq, Repr

def WELCOME_VOICE : String := "voice_welcome.mp3"

def SUPER_STAR_MP3 : String := "super_star.mp3"

/-! ## The globals of `application.cpp`, `setup()` and `loop()` -/

/-- The globals of the translation unit and the state of the collaborators
that the theorems observe. `rgbStrip` is the last mode passed to
`rgbStrip->setMode`, `none` before the first call. -/
structure State where
  mode : Int
  sparkleMode : Bool
  localSparkleMode : Bool
  mp3IsPlaying : Bool
  songs : List String
  songIndex : Nat
  rgbStrip : Option Int
  settings : Settings
deriving DecidableEq, Repr

/-- The static initialisers (lines 46, 62, 68, 69, 150, 154). -/
def initialState (T : ModeTable) (flash : List (String × String)) : State :=
  { mode := T.MODE_SNOWFLAKE, sparkleMode := false, localSparkleMode := false,
    mp3IsPlaying := false, songs := [], songIndex := 0, rgbStrip := none,
    settings := { values := [], flash := flash } }

/-- The loop of `setup()` over the available assets (lines 101-113). -/
def collectSongs : List String → List String → List String
  | [], songs => songs
  | name :: rest, songs =>
    if endsWith name ".mp3" then
      if name ≠ WELCOME_VOICE ∧ name ≠ SUPER_STAR_MP3 then
        collectSongs rest (songs ++ [name])
      else collectSongs rest songs
    else collectSongs rest songs

/-- The part of `setup()` that touches the coordinator state: creating the LED
strip, loading the settings, seeding `mode` (lines 85-90; the cast to the
enumeration keeps the number) and building the play list (lines 101-113). -/
def setup (s : State) (assets : List String) : State × List Effect :=
  let settings := s.settings.init
  let s0 := { s with rgbStrip := none, settings := settings }
  let ledMode := settings.get "ledMode"
  let r : State × List Effect :=
    if ledMode.length > 0 then
      let m := toInt ledMode
      ({ s0 with mode := m, rgbStrip := some m }, [Effect.setMode m])
    else (s0, [])
  ({ r.1 with songs := collectSongs assets r.1.songs }, r.2)

/-- The device after power-on: static initialisation followed by `setup()`. -/
def boot (T : ModeTable) (flash : List (String × String)) (assets : List String) :
    State × List Effect :=
  setup (initialState T flash) assets

/-- The callback given to `VoicePulse` (lines 247-252). -/
def sparkleDetectedCallback (s : State) : State × List Effect :=
  ({ s with sparkleMode := true }, [Effect.logInfo "Sparkle Detected!"])

/-- The lambda given to `mp3Player.play` (lines 170-172 and 235-237). -/
def mp3Callback (s : State) (playing : Bool) : State := { s with mp3IsPlaying := playing }

/-- The sparkle part of `loop()` (lines 163-191). -/
def sparkleStateMachine (T : ModeTable) (s : State) : State × List Effect :=
  if s.sparkleMode && !s.localSparkleMode then
    if !s.mp3IsPlaying then
      ({ s with rgbStrip := some T.MODE_SPARKLE, localSparkleMode := true },
        [Effect.setMode T.MODE_SPARKLE, Effect.mp3Play SUPER_STAR_MP3 100])
    else
      ({ s with sparkleMode := false },
        [Effect.logInfo "MP3 is already playing, not starting sparkle mode"])
  else if s.sparkleMode && s.localSparkleMode then
    if !s.mp3IsPlaying then
      ({ s with sparkleMode := false, localSparkleMode := false, rgbStrip := some s.mode },
        [Effect.setMode s.mode])
    else (s, [])
  else (s, [])

/-- The mode computed by a single click (lines 201-206). -/
def nextMode (T : ModeTable) (mode : Int) : Int :=
  let m := Int.tmod (wrapInt32 (mode + 1)) T.MODE_MAX
  if m = T.MODE_OFF ∨ m = T.MODE_SPARKLE then T.MODE_SNOWFLAKE else m

/-- The `switch` on `particleButton.clicks` (lines 196-242). The access
`songs[songIndex]` outside the vector is undefined: `none`. -/
def buttonDispatch (T : ModeTable) (s : State) (clicks : Int) : Option (State × List Effect) :=
  if clicks = 1 then
    let m := nextMode T s.mode
    some ({ s with mode := m, rgbStrip := some m,
                   settings := (s.settings.set "ledMode" (String_ofInt m)).store },
      [Effect.logInfo "SINGLE click", Effect.setMode m,
       Effect.settingsSet "ledMode" (String_ofInt m), Effect.settingsStore, Effect.tonePlay])
  else if clicks = 2 then some (s, [Effect.logInfo "DOUBLE click"])
  else if clicks = 3 then some (s, [Effect.logInfo "TRIPLE click"])
  else if clicks = -1 then
    if !s.mp3IsPlaying then
      match s.songs[s.songIndex]? with
      | none => none
      | some track =>
        some ({ s with songIndex := (s.songIndex + 1) % 4294967296 % s.songs.length },
          [Effect.logInfo "SINGLE LONG click", Effect.mp3Play track 100])
    else some (s, [Effect.logInfo "SINGLE LONG click"])
  else some (s, [])

/-- One pass of `loop()` (lines 152-244), `clicks` being the value of
`particleButton.clicks` after `particleButton.Update()`. -/
def loop (T : ModeTable) (s : State) (clicks : Int) : Option (State × List Effect) :=
  let r := sparkleStateMachine T s
  let pre := [Effect.buttonUpdate, Effect.watchdogRefresh] ++ r.2
  if !r.1.localSparkleMode then
    match buttonDispatch T r.1 clicks with
    | none => none
    | some (s2, e2) => some (s2, pre ++ e2)
  else some (r.1, pre)

/-! ## Runs of events and what they show -/

/-- What can happen to the coordinator: a pass of `loop()`, the detector
callback, or the MP3 player reporting its state. -/
inductive Event where
  | tick (clicks : Int)
  | sparkleDetected
  | mp3State (playing : Bool)
deriving DecidableEq, Repr

/-- One event. -/
def step (T : ModeTable) (s : State) : Event → Option (State × List Effect)
  | Event.tick clicks => loop T s clicks
  | Event.sparkleDetected => some (sparkleDetectedCallback s)
  | Event.mp3State playing => some (mp3Callback s playing, [])

/-- A sequence of events, with the calls made along the way. -/
def run (T : ModeTable) : State → List Event → Option (State × List Effect)
  | s, [] => some (s, [])
  | s, ev :: evs =>
    match step T s ev with
    | none => none
    | some (s1, e1) =>
      match run T s1 evs with
      | none => none
      | some (s2, e2) => some (s2, e1 ++ e2)

/-- A text all of whose characters are decimal digits. -/
def AllDigits (l : List Char) : Prop := ∀ c ∈ l, ∃ d, d < 10 ∧ c = digitChar d

/-- The writes to the store among the calls: `settings.set(key, value)`. -/
def storeWrites : List Effect → List (String × String)
  | [] => []
  | Effect.settingsSet k v :: rest => (k, v) :: storeWrites rest
  | _ :: rest => storeWrites rest

/-- The files passed to `mp3Player.play` among the calls. -/
def playRequests : List Effect → List String
  | [] => []
  | Effect.mp3Play file _ :: rest => file :: playRequests rest
  | _ :: rest => playRequests rest

/-- The modes passed to `rgbStrip->setMode` among the calls. -/
def ledModes : List Effect → List Int
  | [] => []
  | Effect.setMode m :: rest => m :: ledModes rest
  | _ :: rest => ledModes rest

/-- The text written for a selectable mode. -/
def SelectableText (T : ModeTable) (v : String) : Prop :=
  (∃ m, T.selectable m ∧ v = String_ofInt m) ∧
  v ≠ String_ofInt T.MODE_OFF ∧ v ≠ String_ofInt T.MODE_SPARKLE

/-- The state of the scenarios of the spec: the device booted with an empty
store and the play list `a.mp3`, `b.mp3`. -/
def scenarioState : State := (boot scenarioModes [] ["a.mp3", "b.mp3"]).1

/-- A click is dispatched: no episode is in progress and no episode starts in
this pass. -/
def Dispatching (s : State) : Prop :=
  s.localSparkleMode = false ∧ (s.sparkleMode = false ∨ s.mp3IsPlaying = true)

instance (s : State) : Decidable (Dispatching s) := by
  unfold Dispatching; infer_instance

/-- The value of `mode` after each event of a run. -/
def modesAfter (T : ModeTable) : State → List Event → List Int
  | _, [] => []
  | s, ev :: evs =>
    match step T s ev with
    | none => []
    | some (s1, _) => s1.mode :: modesAfter T s1 evs

/-- The single click of the pass that ends an episode: a state in an episode
whose track has finished. -/
def episodeEndState : State :=
  { scenarioState with sparkleMode := true, localSparkleMode := true,
                       rgbStrip := some scenarioModes.MODE_SPARKLE }

/-- No latched request and no episode in progress. -/
def Quiet (s : State) : Prop := s.sparkleMode = false ∧ s.localSparkleMode = false

instance (s : State) : Decidable (Quiet s) := by
  unfold Quiet; infer_instance

/-- Whether the event is the detector callback. -/
def Event.isTrigger : Event → Bool
  | Event.sparkleDetected => true
  | _ => false

/-- A state with a request latched while a track plays. -/
def latchedBusyState : State :=
  { scenarioState with sparkleMode := true, mp3IsPlaying := true }

/-! ## The audio slot -/

/-- Modelled from the spec: the Audio Output Slot (`MP3Player`, whose code is
not part of the sources). A request that `loop()` makes is accepted: the
callback given with it sets `mp3IsPlaying` to true, and the completion of the
track calls it with false. `inFlight` counts the requests made and not yet
completed. -/
structure AudioSlot where
  st : State
  inFlight : Nat
deriving DecidableEq, Repr

/-- What can happen to the coordinator and its audio slot. -/
inductive AudioEvent where
  | tick (clicks : Int)
  | trigger
  | completion
deriving DecidableEq, Repr

/-- One event of the coordinator with its audio slot. -/
def audioStep (T : ModeTable) (a : AudioSlot) : AudioEvent → Option (AudioSlot × List Effect)
  | AudioEvent.tick clicks =>
    match loop T a.st clicks with
    | none => none
    | some (s', e) =>
      some ({ st := if (playRequests e).isEmpty then s' else mp3Callback s' true,
              inFlight := a.inFlight + (playRequests e).length }, e)
  | AudioEvent.trigger =>
    some ({ a with st := (sparkleDetectedCallback a.st).1 }, (sparkleDetectedCallback a.st).2)
  | AudioEvent.completion =>
    some ({ st := mp3Callback a.st false, inFlight := a.inFlight - 1 }, [])

/-- A sequence of events of the coordinator with its audio slot. -/
def audioRun (T : ModeTable) : AudioSlot → List AudioEvent → Option (AudioSlot × List Effect)
  | a, [] => some (a, [])
  | a, ev :: evs =>
    match audioStep T a ev with
    | none => none
    | some (a1, e1) =>
      match audioRun T a1 evs with
      | none => none
      | some (a2, e2) => some (a2, e1 ++ e2)

/-- The count of requests in flight agrees with `mp3IsPlaying`. -/
def AudioSlot.Consistent (a : AudioSlot) : Prop :=
  a.inFlight = if a.st.mp3IsPlaying then 1 else 0

/-- A long click, a trigger dropped while the track plays, the completion, a
trigger that starts an episode, and a long click during the episode. -/
def audioScenario : List AudioEvent :=
  [AudioEvent.tick (-1), AudioEvent.trigger, AudioEvent.tick (-1), AudioEvent.completion,
   AudioEvent.trigger, AudioEvent.tick (-1), AudioEvent.tick (-1)]

/-- A state with a request latched and no track playing. -/
def latchedFreeState : State := { scenarioState with sparkleMode := true }

/-- The events of `n` long clicks, each followed by the MP3 player reporting
that the track plays and then that it has finished, so that every click is
dispatched with `mp3IsPlaying` false. -/
def longClickRounds : Nat → List Event
  | 0 => []
  | n + 1 =>
    Event.tick (-1) :: Event.mp3State true :: Event.mp3State false :: longClickRounds n

/-- The assets that the spec lists in the play list: the name ends in `.mp3`
and is neither the welcome voice clip nor the sparkle track. -/
def isPlaylistAsset (name : String) : Bool :=
  endsWith name ".mp3" && decide (name ≠ WELCOME_VOICE) && decide (name ≠ SUPER_STAR_MP3)

/-- The value of `localSparkleMode` after each event of a run. -/
def episodeFlags (T : ModeTable) : State → List Event → List Bool
  | _, [] => []
  | s, ev :: evs =>
    match step T s ev with
    | none => []
    | some (s1, _) => s1.localSparkleMode :: episodeFlags T s1 evs

/-- In an episode the request is still latched and the LED strip has been set
to `MODE_SPARKLE`. -/
def EpisodeInv (T : ModeTable) (s : State) : Prop :=
  s.localSparkleMode = true → s.sparkleMode = true ∧ s.rgbStrip = some T.MODE_SPARKLE

/-- Outside an episode the LED strip, once set, shows `mode`. -/
def DisplayInv (s : State) : Prop :=
  s.localSparkleMode = false → ∀ m, s.rgbStrip = some m → m = s.mode

/-- A state outside an episode in which a track plays. -/
def busyState : State := { scenarioState with mp3IsPlaying := true }

/-! ## Text of numbers: reading back what `String(int)` writes -/

theorem digitChar_facts (d : Nat) (hd : d < 10) :
    (digitChar d).isDigit = true ∧ digitVal (digitChar d) = d ∧
    isSpace (digitChar d) = false ∧ digitChar d ≠ '-' ∧ digitChar d ≠ '+' := by
  interval_cases d <;> decide

theorem atolDigits_append (l1 l2 : List Char) (acc : Nat) (h : AllDigits l1) :
    atolDigits (l1 ++ l2) acc = atolDigits l2 (atolDigits l1 acc) := by
  induction l1 generalizing acc with
  | nil => rfl
  | cons c cs ih =>
    obtain ⟨d, hd, rfl⟩ := h c (List.mem_cons_self _ _)
    have hc := (digitChar_facts d hd).1
    have hcs : AllDigits cs := fun x hx => h x (List.mem_cons_of_mem _ hx)
    simp only [List.cons_append, atolDigits, hc, if_true]
    exact ih _ hcs

theorem utoaFuel_spec (fuel n : Nat) (h : n < fuel) :
    AllDigits (utoaFuel fuel n) ∧ atolDigits (utoaFuel fuel n) 0 = n ∧
    utoaFuel fuel n ≠ [] := by
  induction fuel generalizing n with
  | zero => omega
  | succ f ih =>
    unfold utoaFuel
    by_cases h10 : n < 10
    · simp only [h10, if_true]
      refine ⟨?_, ?_, by simp⟩
      · intro c hc
        exact ⟨n, h10, by simpa using hc⟩
      · simp [atolDigits, (digitChar_facts n h10).1, (digitChar_facts n h10).2.1]
    · simp only [h10, if_false]
      have hlt : n / 10 < f := by omega
      obtain ⟨hall, hval, _⟩ := ih (n / 10) hlt
      have hmod : n % 10 < 10 := Nat.mod_lt _ (by decide)
      refine ⟨?_, ?_, by simp⟩
      · intro c hc
        rcases List.mem_append.mp hc with hc | hc
        · exact hall c hc
        · exact ⟨n % 10, hmod, by simpa using hc⟩
      · rw [atolDigits_append _ _ _ hall, hval]
        simp only [atolDigits, (digitChar_facts _ hmod).1, (digitChar_facts _ hmod).2.1, if_true]
        omega

theorem atol_utoa (n : Nat) : atol (utoa n) = clampLong n := by
  obtain ⟨hall, hval, hne⟩ := utoaFuel_spec (n + 1) n (Nat.lt_succ_self n)
  unfold utoa
  cases hl : utoaFuel (n + 1) n with
  | nil => exact absurd hl hne
  | cons c rest =>
    rw [hl] at hall hval
    obtain ⟨d, hd, rfl⟩ := hall _ (List.mem_cons_self _ _)
    obtain ⟨_, _, hsp, hminus, hplus⟩ := digitChar_facts d hd
    simp only [atol, List.dropWhile, hsp, hminus, hplus, if_false, hval]

/-- Reading back the text of a non-negative `int`. -/
theorem toInt_String_ofInt (m : Int) (h0 : 0 ≤ m) (h1 : m ≤ 2147483647) :
    toInt (String_ofInt m) = m := by
  have hneg : ¬ m < 0 := by omega
  simp only [toInt, String_ofInt, itoa, hneg, if_false, atol_utoa, clampLong]
  have : ((m.toNat : Nat) : Int) = m := Int.toNat_of_nonneg h0
  omega

theorem String_ofInt_length_pos (m : Int) (h0 : 0 ≤ m) : (String_ofInt m).length > 0 := by
  have hneg : ¬ m < 0 := by omega
  have hne := (utoaFuel_spec (m.toNat + 1) m.toNat (Nat.lt_succ_self _)).2.2
  simp only [String_ofInt, itoa, hneg, if_false, String.length, utoa]
  exact List.length_pos.mpr hne

/-! ## One pass of `loop()` -/

theorem wrapInt32_id (x : Int) (h0 : -2147483648 ≤ x) (h1 : x ≤ 2147483647) :
    wrapInt32 x = x := by
  unfold wrapInt32; omega

theorem nextMode_selectable (T : ModeTable) (hT : T.WellFormed) (m : Int)
    (h0 : 0 ≤ m) (h1 : m < 2147483647) : T.selectable (nextMode T m) := by
  obtain ⟨a1, a2, a3, a4, a5, a6, a7, a8, a9, a10⟩ := hT
  have hw : wrapInt32 (m + 1) = m + 1 := wrapInt32_id _ (by omega) (by omega)
  have hpos : 0 < T.MODE_MAX := by omega
  have hmod : Int.tmod (m + 1) T.MODE_MAX = (m + 1) % T.MODE_MAX :=
    Int.tmod_eq_emod (by omega) (by omega)
  have hlo : 0 ≤ (m + 1) % T.MODE_MAX := Int.emod_nonneg _ (by omega)
  have hhi : (m + 1) % T.MODE_MAX < T.MODE_MAX := Int.emod_lt_of_pos _ hpos
  unfold nextMode
  simp only [hw, hmod]
  split
  · exact ⟨a3, a4, fun h => a7 h.symm, a9⟩
  · rename_i hne
    exact ⟨hlo, hhi, fun h => hne (Or.inl h), fun h => hne (Or.inr h)⟩

theorem storeWrites_append (a b : List Effect) :
    storeWrites (a ++ b) = storeWrites a ++ storeWrites b := by
  induction a with
  | nil => rfl
  | cons x xs ih => cases x <;> simp [storeWrites, ih]

theorem playRequests_append (a b : List Effect) :
    playRequests (a ++ b) = playRequests a ++ playRequests b := by
  induction a with
  | nil => rfl
  | cons x xs ih => cases x <;> simp [playRequests, ih]

theorem ledModes_append (a b : List Effect) :
    ledModes (a ++ b) = ledModes a ++ ledModes b := by
  induction a with
  | nil => rfl
  | cons x xs ih => cases x <;> simp [ledModes, ih]

theorem sparkleStateMachine_frame (T : ModeTable) (s : State) :
    (sparkleStateMachine T s).1.mode = s.mode ∧
    (sparkleStateMachine T s).1.settings = s.settings ∧
    (sparkleStateMachine T s).1.songs = s.songs ∧
    (sparkleStateMachine T s).1.songIndex = s.songIndex ∧
    (sparkleStateMachine T s).1.mp3IsPlaying = s.mp3IsPlaying ∧
    storeWrites (sparkleStateMachine T s).2 = [] := by
  unfold sparkleStateMachine
  split_ifs <;> simp [storeWrites]

/-- The two ways in which a pass of `loop()` ends: the click is dispatched on
the state left by the sparkle part, or it is ignored. -/
theorem loop_some_iff (T : ModeTable) (s s' : State) (clicks : Int) (e : List Effect) :
    loop T s clicks = some (s', e) ↔
    ((sparkleStateMachine T s).1.localSparkleMode = false ∧
      ∃ e2, buttonDispatch T (sparkleStateMachine T s).1 clicks = some (s', e2) ∧
        e = [Effect.buttonUpdate, Effect.watchdogRefresh] ++ (sparkleStateMachine T s).2 ++ e2) ∨
    ((sparkleStateMachine T s).1.localSparkleMode = true ∧ s' = (sparkleStateMachine T s).1 ∧
      e = [Effect.buttonUpdate, Effect.watchdogRefresh] ++ (sparkleStateMachine T s).2) := by
  cases hl : (sparkleStateMachine T s).1.localSparkleMode
  · cases hb : buttonDispatch T (sparkleStateMachine T s).1 clicks with
    | none => simp [loop, hl, hb]
    | some r =>
      obtain ⟨s2, e2⟩ := r
      simp only [loop, hl, hb, Bool.not_false, if_true, Option.some.injEq, Prod.mk.injEq,
        true_and, Bool.false_eq_true, false_and, or_false]
      constructor
      · rintro ⟨rfl, rfl⟩; exact ⟨e2, ⟨rfl, rfl⟩, rfl⟩
      · rintro ⟨e3, ⟨rfl, rfl⟩, rfl⟩; exact ⟨rfl, rfl⟩
  · simp only [loop, hl, Bool.not_true, Bool.false_eq_true, if_false, Option.some.injEq,
      Prod.mk.injEq, false_and, false_or, true_and]
    constructor
    · rintro ⟨rfl, rfl⟩; exact Or.inr ⟨rfl, rfl⟩
    · rintro (⟨hf, _⟩ | ⟨rfl, rfl⟩)
      · exact absurd hf (by decide)
      · exact ⟨rfl, rfl⟩

/-- What a dispatched click does to the mode and to the store. -/
theorem buttonDispatch_mode (T : ModeTable) (s s' : State) (clicks : Int) (e : List Effect)
    (h : buttonDispatch T s clicks = some (s', e)) :
    (s'.mode = s.mode ∧ s'.settings = s.settings ∧ storeWrites e = []) ∨
    (clicks = 1 ∧ s'.mode = nextMode T s.mode ∧
        storeWrites e = [("ledMode", String_ofInt (nextMode T s.mode))]) := by
  unfold buttonDispatch at h
  split_ifs at h with h1 h2 h3 h4 h5
  · right
    simp only [Option.some.injEq, Prod.mk.injEq] at h
    obtain ⟨rfl, rfl⟩ := h
    exact ⟨h1, rfl, rfl⟩
  · left; simp only [Option.some.injEq, Prod.mk.injEq] at h; obtain ⟨rfl, rfl⟩ := h
    exact ⟨rfl, rfl, rfl⟩
  · left; simp only [Option.some.injEq, Prod.mk.injEq] at h; obtain ⟨rfl, rfl⟩ := h
    exact ⟨rfl, rfl, rfl⟩
  · left
    cases hg : s.songs[s.songIndex]? with
    | none => rw [hg] at h; exact absurd h (by simp)
    | some t =>
      rw [hg] at h
      simp only [Option.some.injEq, Prod.mk.injEq] at h
      obtain ⟨rfl, rfl⟩ := h; exact ⟨rfl, rfl, rfl⟩
  · left; simp only [Option.some.injEq, Prod.mk.injEq] at h; obtain ⟨rfl, rfl⟩ := h
    exact ⟨rfl, rfl, rfl⟩
  · left; simp only [Option.some.injEq, Prod.mk.injEq] at h; obtain ⟨rfl, rfl⟩ := h
    exact ⟨rfl, rfl, rfl⟩

theorem loop_mode (T : ModeTable) (s s' : State) (clicks : Int) (e : List Effect)
    (h : loop T s clicks = some (s', e)) :
    (s'.mode = s.mode ∧ s'.settings = s.settings ∧ storeWrites e = []) ∨
    (clicks = 1 ∧ s'.mode = nextMode T s.mode ∧
        storeWrites e = [("ledMode", String_ofInt (nextMode T s.mode))]) := by
  obtain ⟨f1, f2, _, _, _, f6⟩ := sparkleStateMachine_frame T s
  rcases (loop_some_iff T s s' clicks e).mp h with ⟨_, e2, hb, rfl⟩ | ⟨_, rfl, rfl⟩
  · rcases buttonDispatch_mode T _ _ _ _ hb with ⟨g1, g2, g3⟩ | ⟨g1, g2, g3⟩
    · left
      exact ⟨g1.trans f1, g2.trans f2, by simp [storeWrites_append, f6, g3, storeWrites]⟩
    · right
      refine ⟨g1, by rw [g2, f1], ?_⟩
      simp [storeWrites_append, f6, g3, storeWrites, f1]
  · left
    exact ⟨f1, f2, by simp [storeWrites_append, f6, storeWrites]⟩

/-- The cursor stays inside a non-empty play list, and then a pass of `loop()`
is defined. -/
theorem loop_defined (T : ModeTable) (s : State) (clicks : Int)
    (hc : s.songIndex < s.songs.length) :
    ∃ s' e, loop T s clicks = some (s', e) ∧ s'.songs = s.songs ∧
      s'.songIndex < s'.songs.length := by
  obtain ⟨_, _, f3, f4, _, _⟩ := sparkleStateMachine_frame T s
  have hc1 : (sparkleStateMachine T s).1.songIndex < (sparkleStateMachine T s).1.songs.length := by
    rw [f3, f4]; exact hc
  have hpos : 0 < (sparkleStateMachine T s).1.songs.length := by omega
  have hget : (sparkleStateMachine T s).1.songs[(sparkleStateMachine T s).1.songIndex]? =
      some ((sparkleStateMachine T s).1.songs.get ⟨_, hc1⟩) := by
    simp [List.getElem?_eq_getElem hc1]
  unfold loop buttonDispatch
  simp only [hget]
  split_ifs <;> simp [f3, f4, hc, Nat.mod_lt _ hpos]
  rw [← f3]; exact Nat.mod_lt _ hpos

/-! ## The selected mode over runs of events -/

theorem step_mode (T : ModeTable) (s s' : State) (ev : Event) (e : List Effect)
    (h : step T s ev = some (s', e)) :
    (s'.mode = s.mode ∧ s'.settings = s.settings ∧ storeWrites e = []) ∨
    (s'.mode = nextMode T s.mode ∧
        storeWrites e = [("ledMode", String_ofInt (nextMode T s.mode))]) := by
  cases ev with
  | tick clicks =>
    rcases loop_mode T s s' clicks e h with h1 | ⟨_, h2, h3⟩
    · exact Or.inl h1
    · exact Or.inr ⟨h2, h3⟩
  | sparkleDetected =>
    simp only [step, sparkleDetectedCallback, Option.some.injEq, Prod.mk.injEq] at h
    obtain ⟨rfl, rfl⟩ := h
    exact Or.inl ⟨rfl, rfl, rfl⟩
  | mp3State playing =>
    simp only [step, mp3Callback, Option.some.injEq, Prod.mk.injEq] at h
    obtain ⟨rfl, rfl⟩ := h
    exact Or.inl ⟨rfl, rfl, rfl⟩

theorem step_defined (T : ModeTable) (s : State) (ev : Event)
    (hc : s.songIndex < s.songs.length) :
    ∃ s' e, step T s ev = some (s', e) ∧ s'.songs = s.songs ∧
      s'.songIndex < s'.songs.length := by
  cases ev with
  | tick clicks => exact loop_defined T s clicks hc
  | sparkleDetected => exact ⟨_, _, rfl, rfl, hc⟩
  | mp3State playing => exact ⟨_, _, rfl, rfl, hc⟩

theorem run_defined (T : ModeTable) (s : State) (evs : List Event)
    (hc : s.songIndex < s.songs.length) : ∃ s' e, run T s evs = some (s', e) := by
  induction evs generalizing s with
  | nil => exact ⟨s, [], rfl⟩
  | cons ev evs ih =>
    obtain ⟨s1, e1, h1, h2, h3⟩ := step_defined T s ev hc
    obtain ⟨s2, e2, h4⟩ := ih s1 h3
    exact ⟨s2, e1 ++ e2, by simp [run, h1, h4]⟩

/-- Unfolding a run at its first event. -/
theorem run_cons_some (T : ModeTable) (s s' : State) (ev : Event) (evs : List Event)
    (e : List Effect) (h : run T s (ev :: evs) = some (s', e)) :
    ∃ s1 e1 e2, step T s ev = some (s1, e1) ∧ run T s1 evs = some (s', e2) ∧ e = e1 ++ e2 := by
  simp only [run] at h
  cases h1 : step T s ev with
  | none => rw [h1] at h; exact absurd h (by simp)
  | some r1 =>
    obtain ⟨s1, e1⟩ := r1
    rw [h1] at h
    simp only at h
    cases h2 : run T s1 evs with
    | none => rw [h2] at h; exact absurd h (by simp)
    | some r2 =>
      obtain ⟨s2, e2⟩ := r2
      rw [h2] at h
      simp only [Option.some.injEq, Prod.mk.injEq] at h
      obtain ⟨rfl, rfl⟩ := h
      exact ⟨s1, e1, e2, rfl, h2, rfl⟩

theorem String_ofInt_ne (a b : Int) (ha0 : 0 ≤ a) (ha1 : a ≤ 2147483647)
    (hb0 : 0 ≤ b) (hb1 : b ≤ 2147483647) (hab : a ≠ b) : String_ofInt a ≠ String_ofInt b := by
  intro h
  apply hab
  rw [← toInt_String_ofInt a ha0 ha1, ← toInt_String_ofInt b hb0 hb1, h]

theorem selectableText_of_selectable (T : ModeTable) (hT : T.WellFormed) (m : Int)
    (hm : T.selectable m) : SelectableText T (String_ofInt m) := by
  obtain ⟨a1, a2, a3, a4, a5, a6, a7, a8, a9, a10⟩ := hT
  obtain ⟨m0, m1, m2, m3⟩ := hm
  exact ⟨⟨m, ⟨m0, m1, m2, m3⟩, rfl⟩,
    String_ofInt_ne _ _ m0 (by omega) a1 (by omega) m2,
    String_ofInt_ne _ _ m0 (by omega) a5 (by omega) m3⟩

theorem run_selectable (T : ModeTable) (hT : T.WellFormed) (s : State) (evs : List Event)
    (hs : T.selectable s.mode) (s' : State) (e : List Effect)
    (h : run T s evs = some (s', e)) :
    T.selectable s'.mode ∧
    ∀ k v, (k, v) ∈ storeWrites e → k = "ledMode" ∧ SelectableText T v := by
  induction evs generalizing s e with
  | nil =>
    simp only [run, Option.some.injEq, Prod.mk.injEq] at h
    obtain ⟨rfl, rfl⟩ := h
    exact ⟨hs, by simp [storeWrites]⟩
  | cons ev evs ih =>
    obtain ⟨s1, e1, e2, h1, h2, rfl⟩ := run_cons_some T s s' ev evs e h
    have hnext : T.selectable (nextMode T s.mode) :=
      nextMode_selectable T hT s.mode hs.1 (by
        have := hT.2.2.2.2.2.2.2.2.2
        have := hs.2.1
        omega)
    rcases step_mode T s s1 ev e1 h1 with ⟨g1, _, g3⟩ | ⟨g1, g3⟩
    · obtain ⟨i1, i2⟩ := ih s1 (by rw [g1]; exact hs) e2 h2
      refine ⟨i1, ?_⟩
      intro k v hkv
      rw [storeWrites_append, g3, List.nil_append] at hkv
      exact i2 k v hkv
    · obtain ⟨i1, i2⟩ := ih s1 (by rw [g1]; exact hnext) e2 h2
      refine ⟨i1, ?_⟩
      intro k v hkv
      rw [storeWrites_append, g3] at hkv
      simp only [List.singleton_append, List.mem_cons, Prod.mk.injEq] at hkv
      rcases hkv with ⟨rfl, rfl⟩ | hkv
      · exact ⟨rfl, selectableText_of_selectable T hT _ hnext⟩
      · exact i2 k v hkv

/-- C1: from a state whose `mode` is selectable, after every sequence of
events (passes of `loop()` with any clicks, detector callbacks, MP3 state
callbacks) `mode` is selectable and every pair written to the store has the key
`ledMode` and the text of a selectable mode, never that of `MODE_OFF` or
`MODE_SPARKLE`; with the cursor inside the play list every such sequence runs
to its end. -/
theorem selected_mode_invariant (T : ModeTable) (hT : T.WellFormed) (s : State)
    (hs : T.selectable s.mode) :
    (∀ evs s' e, run T s evs = some (s', e) →
      T.selectable s'.mode ∧
      ∀ k v, (k, v) ∈ storeWrites e → k = "ledMode" ∧ SelectableText T v) ∧
    (s.songIndex < s.songs.length → ∀ evs, ∃ s' e, run T s evs = some (s', e)) :=
  ⟨fun evs s' e h => run_selectable T hT s evs hs s' e h,
   fun hc evs => run_defined T s evs hc⟩

theorem selected_mode_invariant_witness :
    scenarioModes.WellFormed ∧ scenarioModes.selectable scenarioState.mode ∧
    scenarioModes.selectable 1 ∧
    ∀ k v, (k, v) ∈ [("ledMode", "2"), ("ledMode", "1")] →
      k = "ledMode" ∧ SelectableText scenarioModes v :=
  ⟨by decide, by decide,
   ((selected_mode_invariant scenarioModes (by decide) scenarioState (by decide)).1
      [Event.tick 1, Event.sparkleDetected, Event.tick (-1), Event.tick 1] _ _ rfl).1,
   ((selected_mode_invariant scenarioModes (by decide) scenarioState (by decide)).1
      [Event.tick 1, Event.sparkleDetected, Event.tick (-1), Event.tick 1] _ _ rfl).2⟩

/-! ## Single clicks -/

/-- A single click in a state outside a sparkle episode with nothing latched. -/
theorem loop_single_idle (T : ModeTable) (s : State) (hl : s.localSparkleMode = false)
    (hs : s.sparkleMode = false) :
    loop T s 1 = some
      ({ s with mode := nextMode T s.mode, rgbStrip := some (nextMode T s.mode),
                settings := (s.settings.set "ledMode" (String_ofInt (nextMode T s.mode))).store },
       [Effect.buttonUpdate, Effect.watchdogRefresh, Effect.logInfo "SINGLE click",
        Effect.setMode (nextMode T s.mode),
        Effect.settingsSet "ledMode" (String_ofInt (nextMode T s.mode)),
        Effect.settingsStore, Effect.tonePlay]) := by
  simp [loop, sparkleStateMachine, buttonDispatch, hl, hs]

/-- A single click in the pass that drops a latched sparkle request. -/
theorem loop_single_drop (T : ModeTable) (s : State) (hl : s.localSparkleMode = false)
    (hs : s.sparkleMode = true) (hp : s.mp3IsPlaying = true) :
    loop T s 1 = some
      ({ s with sparkleMode := false, mode := nextMode T s.mode,
                rgbStrip := some (nextMode T s.mode),
                settings := (s.settings.set "ledMode" (String_ofInt (nextMode T s.mode))).store },
       [Effect.buttonUpdate, Effect.watchdogRefresh,
        Effect.logInfo "MP3 is already playing, not starting sparkle mode",
        Effect.logInfo "SINGLE click",
        Effect.setMode (nextMode T s.mode),
        Effect.settingsSet "ledMode" (String_ofInt (nextMode T s.mode)),
        Effect.settingsStore, Effect.tonePlay]) := by
  simp [loop, sparkleStateMachine, buttonDispatch, hl, hs, hp]

theorem loop_single_dispatching (T : ModeTable) (s : State) (h : Dispatching s) :
    ∃ s' e, loop T s 1 = some (s', e) ∧ s'.mode = nextMode T s.mode ∧ Dispatching s' := by
  obtain ⟨hl, hh⟩ := h
  cases hs : s.sparkleMode
  · exact ⟨_, _, loop_single_idle T s hl hs, rfl, hl, Or.inl hs⟩
  · have hp : s.mp3IsPlaying = true := by
      rcases hh with hh | hh
      · rw [hs] at hh; exact absurd hh (by decide)
      · exact hh
    exact ⟨_, _, loop_single_drop T s hl hs hp, rfl, hl, Or.inl rfl⟩

theorem nextMode_specOrder (T : ModeTable) (hT : T.SpecOrder) (K n : Nat)
    (hK : T.MODE_MAX = (K : Int) + 2) (hn : n < K) :
    nextMode T ((n : Int) + 1) = (((n + 1) % K : Nat) : Int) + 1 := by
  obtain ⟨a1, a2, a3, a4, a5⟩ := hT
  have hw : wrapInt32 ((n : Int) + 1 + 1) = (n : Int) + 2 := by
    rw [wrapInt32_id _ (by omega) (by omega)]; ring
  have hmod : Int.tmod ((n : Int) + 2) T.MODE_MAX = (n : Int) + 2 := by
    rw [Int.tmod_eq_emod (by omega) (by omega)]
    exact Int.emod_eq_of_lt (by omega) (by omega)
  unfold nextMode
  simp only [hw, hmod, a1, a2, a3]
  by_cases hlast : n + 1 = K
  · have h1 : (n : Int) + 2 = T.MODE_MAX - 1 := by omega
    simp only [h1, or_true, if_true, hlast, Nat.mod_self]
    rfl
  · have h1 : ¬ ((n : Int) + 2 = 0 ∨ (n : Int) + 2 = T.MODE_MAX - 1) := by omega
    have h2 : (n + 1) % K = n + 1 := Nat.mod_eq_of_lt (by omega)
    simp only [h1, if_false, h2]
    push_cast; ring

/-- Rotating the indices `0 .. N-1` by `c` lists each of them once. -/
theorem rotation_perm (N c : Nat) :
    ((List.range N).map (fun i => (c + i) % N)).Perm (List.range N) := by
  have hnd : ((List.range N).map (fun i => (c + i) % N)).Nodup := by
    refine List.Nodup.map_on ?_ (List.nodup_range N)
    intro i hi j hj hij
    have hi1 : i < N := List.mem_range.mp hi
    have hj1 : j < N := List.mem_range.mp hj
    have h1 : i ≡ j [MOD N] := Nat.ModEq.add_left_cancel' c hij
    exact Nat.ModEq.eq_of_lt_of_lt h1 hi1 hj1
  have hsub : (List.range N).map (fun i => (c + i) % N) ⊆ List.range N := by
    intro x hx
    obtain ⟨i, hi, rfl⟩ := List.mem_map.mp hx
    have hi1 : i < N := List.mem_range.mp hi
    exact List.mem_range.mpr (Nat.mod_lt _ (by omega))
  exact (List.subperm_of_subset hnd hsub).perm_of_length_le (by simp)

theorem single_clicks_trace (T : ModeTable) (hT : T.SpecOrder) (K : Nat)
    (hK : T.MODE_MAX = (K : Int) + 2) (j : Nat) (n0 : Nat) (hn0 : n0 < K) (s : State)
    (hd : Dispatching s) (hm : s.mode = (n0 : Int) + 1) :
    modesAfter T s (List.replicate j (Event.tick 1)) =
      (List.range j).map (fun i => (((n0 + (i + 1)) % K : Nat) : Int) + 1) ∧
    ∃ s' e, run T s (List.replicate j (Event.tick 1)) = some (s', e) ∧
      s'.mode = (((n0 + j) % K : Nat) : Int) + 1 ∧ Dispatching s' := by
  induction j generalizing s n0 with
  | zero =>
    refine ⟨rfl, s, [], rfl, ?_, hd⟩
    rw [hm, Nat.add_zero, Nat.mod_eq_of_lt hn0]
  | succ j ih =>
    obtain ⟨s1, e1, h1, h2, h3⟩ := loop_single_dispatching T s hd
    have hnext : s1.mode = (((n0 + 1) % K : Nat) : Int) + 1 := by
      rw [h2, hm]; exact nextMode_specOrder T hT K n0 hK hn0
    have hlt : (n0 + 1) % K < K := Nat.mod_lt _ (by omega)
    obtain ⟨i1, s2, e2, i2, i3, i4⟩ := ih ((n0 + 1) % K) hlt s1 h3 hnext
    have hshift : ∀ i, ((n0 + 1) % K + i) % K = (n0 + (i + 1)) % K := by
      intro i
      rw [Nat.mod_add_mod]
      congr 1; omega
    constructor
    · simp only [List.replicate_succ, modesAfter, step, h1, i1, List.range_succ_eq_map,
        List.map_cons, List.map_map, hnext]
      refine congrArg₂ List.cons (by simp) ?_
      apply List.map_congr_left
      intro i _
      simp only [Function.comp, hshift]
    · refine ⟨s2, e1 ++ e2, ?_, ?_, i4⟩
      · simp only [List.replicate_succ, run, step, h1, i2]
      · rw [i3, hshift]

/-- C2: with the enumerators in the order of the spec and `K = MODE_MAX - 2`
selectable modes, `K` consecutive single clicks, dispatched from a state with a
selectable `mode`, set `mode` to `K` distinct values, which are exactly the
selectable modes, and leave `mode` where it started. -/
theorem single_click_full_cycle (T : ModeTable) (hT : T.SpecOrder) (K : Nat)
    (hK : T.MODE_MAX = (K : Int) + 2) (s : State) (hd : Dispatching s)
    (hm : T.selectable s.mode) :
    (modesAfter T s (List.replicate K (Event.tick 1))).length = K ∧
    (modesAfter T s (List.replicate K (Event.tick 1))).Nodup ∧
    (∀ m, m ∈ modesAfter T s (List.replicate K (Event.tick 1)) ↔ T.selectable m) ∧
    ∃ s' e, run T s (List.replicate K (Event.tick 1)) = some (s', e) ∧ s'.mode = s.mode := by
  obtain ⟨a1, a2, a3, a4, a5⟩ := hT
  obtain ⟨m0, m1, m2, m3⟩ := hm
  have hn0 : (s.mode - 1).toNat < K := by omega
  have hmode : s.mode = (((s.mode - 1).toNat : Nat) : Int) + 1 := by omega
  obtain ⟨htr, s', e, hrun, hfin, _⟩ :=
    single_clicks_trace T ⟨a1, a2, a3, a4, a5⟩ K hK K (s.mode - 1).toNat hn0 s hd hmode
  have hfun : (fun i => (((((s.mode - 1).toNat + (i + 1)) % K : Nat) : Int) + 1)) =
      (fun n : Nat => (n : Int) + 1) ∘ (fun i => (((s.mode - 1).toNat + 1) + i) % K) := by
    funext i
    simp only [Function.comp]
    congr 3; omega
  have hperm : (modesAfter T s (List.replicate K (Event.tick 1))).Perm
      ((List.range K).map (fun n : Nat => (n : Int) + 1)) := by
    rw [htr, hfun, ← List.map_map]
    exact (rotation_perm K ((s.mode - 1).toNat + 1)).map _
  have hinj : Function.Injective (fun n : Nat => (n : Int) + 1) := by
    intro a b hab
    simp only at hab
    omega
  refine ⟨?_, ?_, ?_, s', e, hrun, ?_⟩
  · rw [hperm.length_eq]; simp
  · exact hperm.nodup_iff.mpr ((List.nodup_range K).map hinj)
  · intro m
    rw [hperm.mem_iff, List.mem_map]
    constructor
    · rintro ⟨n, hn, rfl⟩
      have hn1 : n < K := List.mem_range.mp hn
      refine ⟨by omega, by omega, by omega, by omega⟩
    · rintro ⟨b0, b1, b2, b3⟩
      exact ⟨(m - 1).toNat, List.mem_range.mpr (by omega), by omega⟩
  · rw [hfin, Nat.add_mod_right, Nat.mod_eq_of_lt hn0]
    omega

theorem single_click_full_cycle_witness :
    scenarioModes.SpecOrder ∧ scenarioModes.MODE_MAX = ((2 : Nat) : Int) + 2 ∧
    Dispatching scenarioState ∧ scenarioModes.selectable scenarioState.mode ∧
    (modesAfter scenarioModes scenarioState (List.replicate 2 (Event.tick 1))).length = 2 ∧
    (modesAfter scenarioModes scenarioState (List.replicate 2 (Event.tick 1))).Nodup ∧
    (∀ m, m ∈ modesAfter scenarioModes scenarioState (List.replicate 2 (Event.tick 1)) ↔
      scenarioModes.selectable m) ∧
    ∃ s' e, run scenarioModes scenarioState (List.replicate 2 (Event.tick 1)) = some (s', e) ∧
      s'.mode = scenarioState.mode :=
  ⟨by decide, by decide, by decide, by decide,
   single_click_full_cycle scenarioModes (by decide) 2 (by decide) scenarioState
     (by decide) (by decide)⟩

theorem kvGet_set (st : Settings) (key value : String) :
    ((st.set key value).store).get key = value ∧
    kvGet ((st.set key value).store).flash key = value := by
  simp [Settings.set, Settings.store, Settings.get, kvGet]

/-- C3: in a state outside a sparkle episode with no request latched, whatever
`mp3IsPlaying`, a pass with a single click is defined, sets `mode` to
`nextMode`, passes the new `mode` to `rgbStrip->setMode`, writes its decimal
text under `ledMode` in the settings and flushes them (`settings.set` then
`settings.store`), requests no MP3, and leaves `mp3IsPlaying`, the cursor, the
play list and the flags unchanged. -/
theorem single_click_write_through (T : ModeTable) (s : State)
    (hl : s.localSparkleMode = false) (hs : s.sparkleMode = false) :
    ∃ s' e, loop T s 1 = some (s', e) ∧
      s'.mode = nextMode T s.mode ∧
      s'.rgbStrip = some s'.mode ∧ ledModes e = [s'.mode] ∧
      s'.settings.get "ledMode" = String_ofInt s'.mode ∧
      kvGet s'.settings.flash "ledMode" = String_ofInt s'.mode ∧
      storeWrites e = [("ledMode", String_ofInt s'.mode)] ∧
      Effect.settingsStore ∈ e ∧
      playRequests e = [] ∧
      s'.mp3IsPlaying = s.mp3IsPlaying ∧ s'.songIndex = s.songIndex ∧
      s'.songs = s.songs ∧ s'.sparkleMode = false ∧ s'.localSparkleMode = false := by
  refine ⟨_, _, loop_single_idle T s hl hs, rfl, rfl, rfl, ?_, ?_, rfl, ?_, rfl, rfl, rfl,
    rfl, hs, hl⟩
  · exact (kvGet_set _ _ _).1
  · exact (kvGet_set _ _ _).2
  · simp

theorem single_click_write_through_witness :
    scenarioState.localSparkleMode = false ∧ scenarioState.sparkleMode = false ∧
    scenarioState.mode = scenarioModes.MODE_SNOWFLAKE ∧
    nextMode scenarioModes scenarioState.mode = 2 ∧ String_ofInt 2 = "2" ∧
    ∃ s' e, loop scenarioModes scenarioState 1 = some (s', e) ∧
      s'.mode = nextMode scenarioModes scenarioState.mode ∧
      s'.rgbStrip = some s'.mode ∧ ledModes e = [s'.mode] ∧
      s'.settings.get "ledMode" = String_ofInt s'.mode ∧
      kvGet s'.settings.flash "ledMode" = String_ofInt s'.mode ∧
      storeWrites e = [("ledMode", String_ofInt s'.mode)] ∧
      Effect.settingsStore ∈ e ∧
      playRequests e = [] ∧
      s'.mp3IsPlaying = scenarioState.mp3IsPlaying ∧ s'.songIndex = scenarioState.songIndex ∧
      s'.songs = scenarioState.songs ∧ s'.sparkleMode = false ∧ s'.localSparkleMode = false :=
  ⟨by decide, by decide, by decide, by decide, by decide,
   single_click_write_through scenarioModes scenarioState (by decide) (by decide)⟩

/-! ## Boot -/

/-- The seeding of `mode` in `setup()`. -/
theorem setup_mode (s : State) (assets : List String) :
    (setup s assets).1.mode =
      (if (kvGet s.settings.flash "ledMode").length > 0
        then toInt (kvGet s.settings.flash "ledMode") else s.mode) ∧
    (setup s assets).1.rgbStrip =
      (if (kvGet s.settings.flash "ledMode").length > 0
        then some (toInt (kvGet s.settings.flash "ledMode")) else none) ∧
    ledModes (setup s assets).2 =
      (if (kvGet s.settings.flash "ledMode").length > 0
        then [toInt (kvGet s.settings.flash "ledMode")] else []) := by
  unfold setup
  simp only [Settings.init, Settings.get]
  split_ifs <;> exact ⟨rfl, rfl, rfl⟩

/-- C4: for a selectable mode `m`, when the durable settings hold under
`ledMode` the text `String(m)` that a single click writes, `setup()` sets
`mode` to `m` and passes `m` to `rgbStrip->setMode`; in particular booting from
the settings left by a dispatched single click restores the mode selected by
that click. -/
theorem persistence_round_trip (T : ModeTable) (hT : T.WellFormed) (m : Int)
    (hm : T.selectable m) (s : State) (assets : List String)
    (hflash : kvGet s.settings.flash "ledMode" = String_ofInt m) :
    (setup s assets).1.mode = m ∧ (setup s assets).1.rgbStrip = some m ∧
    ledModes (setup s assets).2 = [m] ∧
    (∀ s0 s1 e, T.selectable s0.mode → s0.localSparkleMode = false → s0.sparkleMode = false →
      loop T s0 1 = some (s1, e) →
      (boot T s1.settings.flash assets).1.mode = s1.mode ∧
      (boot T s1.settings.flash assets).1.rgbStrip = some s1.mode) := by
  have hmax := hT.2.2.2.2.2.2.2.2.2
  have key : ∀ (x : Int) (st : State), 0 ≤ x → x ≤ 2147483647 →
      kvGet st.settings.flash "ledMode" = String_ofInt x →
      (setup st assets).1.mode = x ∧ (setup st assets).1.rgbStrip = some x ∧
      ledModes (setup st assets).2 = [x] := by
    intro x st hx0 hx1 hst
    obtain ⟨h1, h2, h3⟩ := setup_mode st assets
    have hlen : (kvGet st.settings.flash "ledMode").length > 0 := by
      rw [hst]; exact String_ofInt_length_pos x hx0
    rw [if_pos hlen] at h1 h2 h3
    rw [hst, toInt_String_ofInt x hx0 hx1] at h1 h2 h3
    exact ⟨h1, h2, h3⟩
  obtain ⟨m0, m1, _, _⟩ := hm
  refine ⟨(key m s m0 (by omega) hflash).1, (key m s m0 (by omega) hflash).2.1,
    (key m s m0 (by omega) hflash).2.2, ?_⟩
  intro s0 s1 e hsel hl hs hloop
  rw [loop_single_idle T s0 hl hs] at hloop
  simp only [Option.some.injEq, Prod.mk.injEq] at hloop
  obtain ⟨rfl, _⟩ := hloop
  have hnext : T.selectable (nextMode T s0.mode) :=
    nextMode_selectable T hT s0.mode hsel.1 (by have := hsel.2.1; omega)
  have hk := key (nextMode T s0.mode)
    (initialState T ((s0.settings.set "ledMode" (String_ofInt (nextMode T s0.mode))).store).flash)
    hnext.1 (by have := hnext.2.1; omega) (kvGet_set _ _ _).2
  exact ⟨hk.1, hk.2.1⟩

theorem persistence_round_trip_witness :
    scenarioModes.WellFormed ∧ scenarioModes.selectable 2 ∧
    kvGet (initialState scenarioModes [("ledMode", "2")]).settings.flash "ledMode" =
      String_ofInt 2 ∧
    (setup (initialState scenarioModes [("ledMode", "2")]) ["a.mp3"]).1.mode = 2 ∧
    (setup (initialState scenarioModes [("ledMode", "2")]) ["a.mp3"]).1.rgbStrip = some 2 :=
  ⟨by decide, by decide, by decide,
   (persistence_round_trip scenarioModes (by decide) 2 (by decide)
      (initialState scenarioModes [("ledMode", "2")]) ["a.mp3"] (by decide)).1,
   (persistence_round_trip scenarioModes (by decide) 2 (by decide)
      (initialState scenarioModes [("ledMode", "2")]) ["a.mp3"] (by decide)).2.1⟩

/-- C5, as the code has it: `setup()` tests only whether the stored text is
empty. With no stored text `mode` keeps its initial value `MODE_SNOWFLAKE` and
`rgbStrip->setMode` is not called; a stored text that is not empty is decoded
by `toInt` and becomes `mode` without any check of the number. -/
theorem boot_seeding (T : ModeTable) (flash : List (String × String)) (assets : List String) :
    (boot T flash assets).1.mode =
      (if (kvGet flash "ledMode").length > 0 then toInt (kvGet flash "ledMode")
        else T.MODE_SNOWFLAKE) ∧
    (boot T flash assets).1.rgbStrip =
      (if (kvGet flash "ledMode").length > 0 then some (toInt (kvGet flash "ledMode"))
        else none) ∧
    ledModes (boot T flash assets).2 =
      (if (kvGet flash "ledMode").length > 0 then [toInt (kvGet flash "ledMode")] else []) :=
  setup_mode (initialState T flash) assets

/-- C5 fails on stored texts that are not empty: with `MODE_OFF = 0`,
`MODE_SNOWFLAKE = 1`, `MODE_SPARKLE = 3`, `MODE_MAX = 4` the stored texts
`abc` (not a number), `0` (`MODE_OFF`), `3` (`MODE_SPARKLE`) and `7` (beyond
`MODE_MAX`) seed `mode` with `0`, `0`, `3` and `7`, not with `MODE_SNOWFLAKE`. -/
theorem boot_fallback_counterexample :
    (boot scenarioModes [("ledMode", "abc")] []).1.mode = scenarioModes.MODE_OFF ∧
    (boot scenarioModes [("ledMode", "abc")] []).1.mode ≠ scenarioModes.MODE_SNOWFLAKE ∧
    (boot scenarioModes [("ledMode", "0")] []).1.mode = scenarioModes.MODE_OFF ∧
    (boot scenarioModes [("ledMode", "3")] []).1.mode = scenarioModes.MODE_SPARKLE ∧
    (boot scenarioModes [("ledMode", "7")] []).1.mode = 7 ∧
    ¬ scenarioModes.selectable 7 := by
  decide

/-! ## Clicks during a sparkle episode -/

/-- C6 fails in the pass that ends the episode: `localSparkleMode` is true
when the pass begins, the track has finished, and the single click of that
pass changes `mode` from 1 to 2 and writes `2` to the store. -/
theorem click_during_sparkle_counterexample :
    episodeEndState.localSparkleMode = true ∧ episodeEndState.mode = 1 ∧
    ∃ s' e, loop scenarioModes episodeEndState 1 = some (s', e) ∧
      s'.mode = 2 ∧ storeWrites e = [("ledMode", "2")] ∧
      kvGet s'.settings.flash "ledMode" = "2" :=
  ⟨by decide, by decide, _, _, rfl, by decide, by decide, by decide⟩

/-- C6, as the code has it: the click is tested against `localSparkleMode`
after the sparkle part of the pass. When `localSparkleMode` is true at the
start of the pass and the episode does not end in it (`mp3IsPlaying` is true,
or no request is latched), the pass changes nothing and makes no call besides
the button update and the watchdog refresh, whatever the click. When the
episode ends in the pass, the click is dispatched on the state left by the
exit. -/
theorem click_during_sparkle (T : ModeTable) (s : State) (clicks : Int)
    (hl : s.localSparkleMode = true) :
    ((s.mp3IsPlaying = true ∨ s.sparkleMode = false) →
      loop T s clicks = some (s, [Effect.buttonUpdate, Effect.watchdogRefresh])) ∧
    (s.mp3IsPlaying = false → s.sparkleMode = true →
      loop T s clicks =
        (buttonDispatch T
          { s with sparkleMode := false, localSparkleMode := false, rgbStrip := some s.mode }
          clicks).map
          (fun r => (r.1, [Effect.buttonUpdate, Effect.watchdogRefresh,
                           Effect.setMode s.mode] ++ r.2))) := by
  constructor
  · intro h
    rcases h with h | h
    · cases hs : s.sparkleMode <;> simp [loop, sparkleStateMachine, hl, h, hs]
    · simp [loop, sparkleStateMachine, hl, h]
  · intro hp hs
    simp only [loop, sparkleStateMachine, hl, hs, hp]
    simp only [Bool.and_self, Bool.not_true, Bool.false_eq_true, if_false, Bool.not_false,
      if_true, Bool.and_false, Bool.and_true]
    split <;> rename_i hb <;> simp [hb]

theorem click_during_sparkle_witness :
    ({ episodeEndState with mp3IsPlaying := true } : State).localSparkleMode = true ∧
    loop scenarioModes { episodeEndState with mp3IsPlaying := true } 1 =
      some ({ episodeEndState with mp3IsPlaying := true },
        [Effect.buttonUpdate, Effect.watchdogRefresh]) :=
  ⟨by decide,
   (click_during_sparkle scenarioModes { episodeEndState with mp3IsPlaying := true } 1
      (by decide)).1 (Or.inl (by decide))⟩

/-! ## Dropping a sparkle request while a track plays -/

theorem nextMode_ne_sparkle (T : ModeTable) (h : T.MODE_SNOWFLAKE ≠ T.MODE_SPARKLE) (m : Int) :
    nextMode T m ≠ T.MODE_SPARKLE := by
  unfold nextMode
  simp only
  split
  · exact h
  · rename_i hne
    exact fun heq => hne (Or.inr heq)

/-- What a dispatched click leaves alone, and the calls it makes to the LED
strip and to the MP3 player. -/
theorem buttonDispatch_obs (T : ModeTable) (s s' : State) (clicks : Int) (e : List Effect)
    (h : buttonDispatch T s clicks = some (s', e)) :
    s'.sparkleMode = s.sparkleMode ∧ s'.localSparkleMode = s.localSparkleMode ∧
    s'.mp3IsPlaying = s.mp3IsPlaying ∧ s'.songs = s.songs ∧
    (∀ m ∈ ledModes e, m = nextMode T s.mode) ∧
    ((playRequests e = [] ∧ s'.songIndex = s.songIndex) ∨
     (clicks = -1 ∧ s.mp3IsPlaying = false ∧ ∃ t, s.songs[s.songIndex]? = some t ∧
        playRequests e = [t] ∧
        s'.songIndex = (s.songIndex + 1) % 4294967296 % s.songs.length)) := by
  unfold buttonDispatch at h
  split_ifs at h with h1 h2 h3 h4 h5
  · simp only [Option.some.injEq, Prod.mk.injEq] at h
    obtain ⟨rfl, rfl⟩ := h
    exact ⟨rfl, rfl, rfl, rfl, by simp [ledModes], Or.inl ⟨rfl, rfl⟩⟩
  · simp only [Option.some.injEq, Prod.mk.injEq] at h; obtain ⟨rfl, rfl⟩ := h
    exact ⟨rfl, rfl, rfl, rfl, by simp [ledModes], Or.inl ⟨rfl, rfl⟩⟩
  · simp only [Option.some.injEq, Prod.mk.injEq] at h; obtain ⟨rfl, rfl⟩ := h
    exact ⟨rfl, rfl, rfl, rfl, by simp [ledModes], Or.inl ⟨rfl, rfl⟩⟩
  · cases hg : s.songs[s.songIndex]? with
    | none => rw [hg] at h; exact absurd h (by simp)
    | some t =>
      rw [hg] at h
      simp only [Option.some.injEq, Prod.mk.injEq] at h
      obtain ⟨rfl, rfl⟩ := h
      have hp : s.mp3IsPlaying = false := by simpa using h5
      exact ⟨rfl, rfl, rfl, rfl, by simp [ledModes], Or.inr ⟨h4, hp, t, rfl, rfl, rfl⟩⟩
  · simp only [Option.some.injEq, Prod.mk.injEq] at h; obtain ⟨rfl, rfl⟩ := h
    exact ⟨rfl, rfl, rfl, rfl, by simp [ledModes], Or.inl ⟨rfl, rfl⟩⟩
  · simp only [Option.some.injEq, Prod.mk.injEq] at h; obtain ⟨rfl, rfl⟩ := h
    exact ⟨rfl, rfl, rfl, rfl, by simp [ledModes], Or.inl ⟨rfl, rfl⟩⟩

/-- While a track plays every click is dispatched without fault. -/
theorem buttonDispatch_busy_defined (T : ModeTable) (s : State) (clicks : Int)
    (hp : s.mp3IsPlaying = true) : ∃ s' e, buttonDispatch T s clicks = some (s', e) := by
  unfold buttonDispatch
  split_ifs <;> simp_all

/-- With nothing latched and no episode in progress the sparkle part of the
pass does nothing. -/
theorem loop_quiet (T : ModeTable) (s : State) (clicks : Int)
    (hs : s.sparkleMode = false) (hl : s.localSparkleMode = false) :
    loop T s clicks =
      (buttonDispatch T s clicks).map
        (fun r => (r.1, [Effect.buttonUpdate, Effect.watchdogRefresh] ++ r.2)) := by
  have hssm : sparkleStateMachine T s = (s, []) := by simp [sparkleStateMachine, hs]
  simp only [loop, hssm, hl]
  cases hb : buttonDispatch T s clicks <;> simp

theorem step_quiet (T : ModeTable) (hT : T.MODE_SNOWFLAKE ≠ T.MODE_SPARKLE) (s s' : State)
    (ev : Event) (e : List Effect) (hq : Quiet s) (hev : ev.isTrigger = false)
    (h : step T s ev = some (s', e)) :
    Quiet s' ∧ s'.songs = s.songs ∧ T.MODE_SPARKLE ∉ ledModes e ∧
    ∀ t ∈ playRequests e, t ∈ s.songs := by
  cases ev with
  | sparkleDetected => exact absurd hev (by decide)
  | mp3State playing =>
    simp only [step, mp3Callback, Option.some.injEq, Prod.mk.injEq] at h
    obtain ⟨rfl, rfl⟩ := h
    exact ⟨hq, rfl, by simp [ledModes], by simp [playRequests]⟩
  | tick clicks =>
    simp only [step, loop_quiet T s clicks hq.1 hq.2, Option.map_eq_some'] at h
    obtain ⟨⟨s2, e2⟩, hb, heq⟩ := h
    simp only [Prod.mk.injEq] at heq
    obtain ⟨rfl, rfl⟩ := heq
    obtain ⟨b1, b2, _, b4, b5, b6⟩ := buttonDispatch_obs T s s2 clicks e2 hb
    refine ⟨⟨b1.trans hq.1, b2.trans hq.2⟩, b4, ?_, ?_⟩
    · intro hmem
      rw [ledModes_append] at hmem
      simp only [ledModes, List.nil_append] at hmem
      exact nextMode_ne_sparkle T hT s.mode (b5 _ hmem).symm
    · intro t ht
      rw [playRequests_append] at ht
      simp only [playRequests, List.nil_append] at ht
      rcases b6 with ⟨b6, _⟩ | ⟨_, _, t', g1, g2, _⟩
      · rw [b6] at ht; exact absurd ht (List.not_mem_nil _)
      · rw [g2, List.mem_singleton] at ht
        rw [ht]
        exact List.getElem?_mem g1

theorem run_quiet (T : ModeTable) (hT : T.MODE_SNOWFLAKE ≠ T.MODE_SPARKLE) (s : State)
    (evs : List Event) (hq : Quiet s) (hev : ∀ ev ∈ evs, ev.isTrigger = false)
    (s' : State) (e : List Effect) (h : run T s evs = some (s', e)) :
    Quiet s' ∧ T.MODE_SPARKLE ∉ ledModes e ∧ ∀ t ∈ playRequests e, t ∈ s.songs := by
  induction evs generalizing s e with
  | nil =>
    simp only [run, Option.some.injEq, Prod.mk.injEq] at h
    obtain ⟨rfl, rfl⟩ := h
    exact ⟨hq, by simp [ledModes], by simp [playRequests]⟩
  | cons ev evs ih =>
    obtain ⟨s1, e1, e2, h1, h2, rfl⟩ := run_cons_some T s s' ev evs e h
    obtain ⟨q1, q2, q3, q4⟩ :=
      step_quiet T hT s s1 ev e1 hq (hev ev (List.mem_cons_self _ _)) h1
    obtain ⟨i1, i2, i3⟩ := ih s1 q1 (fun x hx => hev x (List.mem_cons_of_mem _ hx)) e2 h2
    refine ⟨i1, ?_, ?_⟩
    · rw [ledModes_append, List.mem_append]
      exact fun hm => hm.elim q3 i2
    · intro t ht
      rw [playRequests_append, List.mem_append] at ht
      rcases ht with ht | ht
      · exact q4 t ht
      · rw [← q2]; exact i3 t ht

/-- C7: in a state with a sparkle request latched, no episode in progress and a
track playing, the pass is defined for every click, leaves `localSparkleMode`
false, clears `sparkleMode`, passes no `MODE_SPARKLE` to `rgbStrip->setMode`
and makes no MP3 request; afterwards, as long as the detector callback does not
fire, no pass starts an episode: both flags stay false, `MODE_SPARKLE` is never
passed to `rgbStrip->setMode`, and the sparkle track is never requested (the
play list of `setup()` does not hold it). -/
theorem sparkle_dropped_when_busy (T : ModeTable) (hT : T.MODE_SNOWFLAKE ≠ T.MODE_SPARKLE)
    (s : State) (clicks : Int) (hs : s.sparkleMode = true)
    (hl : s.localSparkleMode = false) (hp : s.mp3IsPlaying = true) :
    ∃ s' e, loop T s clicks = some (s', e) ∧
      s'.localSparkleMode = false ∧ s'.sparkleMode = false ∧
      T.MODE_SPARKLE ∉ ledModes e ∧ playRequests e = [] ∧
      ∀ evs, (∀ ev ∈ evs, ev.isTrigger = false) →
        ∀ s'' e'', run T s' evs = some (s'', e'') →
          s''.localSparkleMode = false ∧ s''.sparkleMode = false ∧
          T.MODE_SPARKLE ∉ ledModes e'' ∧
          (SUPER_STAR_MP3 ∉ s.songs → SUPER_STAR_MP3 ∉ playRequests e'') := by
  have hssm : sparkleStateMachine T s = ({ s with sparkleMode := false },
      [Effect.logInfo "MP3 is already playing, not starting sparkle mode"]) := by
    simp [sparkleStateMachine, hs, hl, hp]
  obtain ⟨s', e2, hb⟩ :=
    buttonDispatch_busy_defined T { s with sparkleMode := false } clicks hp
  obtain ⟨b1, b2, _, b4, b5, b6⟩ := buttonDispatch_obs T _ s' clicks e2 hb
  have hloop : loop T s clicks = some (s', [Effect.buttonUpdate, Effect.watchdogRefresh] ++
      [Effect.logInfo "MP3 is already playing, not starting sparkle mode"] ++ e2) := by
    refine (loop_some_iff T s s' clicks _).mpr (Or.inl ⟨?_, e2, ?_, ?_⟩)
    · rw [hssm]; exact hl
    · rw [hssm]; exact hb
    · rw [hssm]
  have hplays : playRequests e2 = [] := by
    rcases b6 with ⟨b6, _⟩ | ⟨_, b6, _⟩
    · exact b6
    · rw [show ({ s with sparkleMode := false } : State).mp3IsPlaying = s.mp3IsPlaying from rfl,
        hp] at b6
      exact absurd b6 (by decide)
  have hq : Quiet s' := ⟨b1, b2.trans hl⟩
  refine ⟨s', _, hloop, hq.2, hq.1, ?_, ?_, ?_⟩
  · rw [ledModes_append]
    simp only [List.cons_append, List.nil_append, ledModes]
    exact fun hmem => nextMode_ne_sparkle T hT s.mode (b5 _ hmem).symm
  · rw [playRequests_append, hplays]
    rfl
  · intro evs hev s'' e'' hrun
    obtain ⟨q1, q2, q3⟩ := run_quiet T hT s' evs hq hev s'' e'' hrun
    refine ⟨q1.2, q1.1, q2, ?_⟩
    intro hnot hmem
    have := q3 _ hmem
    rw [b4] at this
    exact hnot this

theorem sparkle_dropped_when_busy_witness :
    scenarioModes.MODE_SNOWFLAKE ≠ scenarioModes.MODE_SPARKLE ∧
    latchedBusyState.sparkleMode = true ∧ latchedBusyState.localSparkleMode = false ∧
    latchedBusyState.mp3IsPlaying = true ∧
    ∃ s' e, loop scenarioModes latchedBusyState (-1) = some (s', e) ∧
      s'.localSparkleMode = false ∧ s'.sparkleMode = false ∧
      scenarioModes.MODE_SPARKLE ∉ ledModes e ∧ playRequests e = [] ∧
      ∀ evs, (∀ ev ∈ evs, ev.isTrigger = false) →
        ∀ s'' e'', run scenarioModes s' evs = some (s'', e'') →
          s''.localSparkleMode = false ∧ s''.sparkleMode = false ∧
          scenarioModes.MODE_SPARKLE ∉ ledModes e'' ∧
          (SUPER_STAR_MP3 ∉ latchedBusyState.songs → SUPER_STAR_MP3 ∉ playRequests e'') :=
  ⟨by decide, by decide, by decide, by decide,
   sparkle_dropped_when_busy scenarioModes (by decide) latchedBusyState (-1)
     (by decide) (by decide) (by decide)⟩

/-! ## At most one MP3 request in flight -/

/-- The MP3 requests of the sparkle part of a pass: none, or the sparkle track
when nothing plays, and then the episode has begun. -/
theorem sparkleStateMachine_plays (T : ModeTable) (s : State) :
    playRequests (sparkleStateMachine T s).2 = [] ∨
    (s.mp3IsPlaying = false ∧ (sparkleStateMachine T s).1.localSparkleMode = true ∧
      playRequests (sparkleStateMachine T s).2 = [SUPER_STAR_MP3]) := by
  unfold sparkleStateMachine
  split_ifs with h1 h2 h3 h4
  · right; exact ⟨by simpa using h2, rfl, rfl⟩
  · left; rfl
  · left; rfl
  · left; rfl
  · left; rfl

/-- A pass of `loop()` never writes `mp3IsPlaying`, makes at most one MP3
request, and makes it only when `mp3IsPlaying` is false. -/
theorem loop_plays (T : ModeTable) (s s' : State) (clicks : Int) (e : List Effect)
    (h : loop T s clicks = some (s', e)) :
    s'.mp3IsPlaying = s.mp3IsPlaying ∧ (playRequests e).length ≤ 1 ∧
    (playRequests e ≠ [] → s.mp3IsPlaying = false) := by
  obtain ⟨_, _, _, _, f5, _⟩ := sparkleStateMachine_frame T s
  rcases (loop_some_iff T s s' clicks e).mp h with ⟨hl, e2, hb, rfl⟩ | ⟨hl, rfl, rfl⟩
  · obtain ⟨_, _, b3, _, _, b6⟩ := buttonDispatch_obs T _ s' clicks e2 hb
    have hs0 : playRequests (sparkleStateMachine T s).2 = [] := by
      rcases sparkleStateMachine_plays T s with h0 | ⟨_, h1, _⟩
      · exact h0
      · rw [hl] at h1; exact absurd h1 (by decide)
    have hpe : playRequests ([Effect.buttonUpdate, Effect.watchdogRefresh] ++
        (sparkleStateMachine T s).2 ++ e2) = playRequests e2 := by
      rw [playRequests_append, playRequests_append, hs0]; rfl
    rw [hpe]
    refine ⟨b3.trans f5, ?_, ?_⟩
    · rcases b6 with ⟨b6, _⟩ | ⟨_, _, t, _, b6, _⟩ <;> simp [b6]
    · intro hne
      rcases b6 with ⟨b6, _⟩ | ⟨_, b7, _⟩
      · exact absurd b6 hne
      · rw [← f5]; exact b7
  · have hpe : playRequests ([Effect.buttonUpdate, Effect.watchdogRefresh] ++
        (sparkleStateMachine T s).2) = playRequests (sparkleStateMachine T s).2 := by
      rw [playRequests_append]; rfl
    rw [hpe]
    refine ⟨f5, ?_, ?_⟩
    · rcases sparkleStateMachine_plays T s with h0 | ⟨_, _, h1⟩
      · simp [h0]
      · simp [h1]
    · intro hne
      rcases sparkleStateMachine_plays T s with h0 | ⟨h1, _, _⟩
      · exact absurd h0 hne
      · exact h1

theorem audioStep_consistent (T : ModeTable) (a a' : AudioSlot) (ev : AudioEvent)
    (e : List Effect) (hc : a.Consistent) (h : audioStep T a ev = some (a', e)) :
    a'.Consistent := by
  unfold AudioSlot.Consistent at hc ⊢
  cases ev with
  | trigger =>
    simp only [audioStep, sparkleDetectedCallback, Option.some.injEq, Prod.mk.injEq] at h
    obtain ⟨rfl, _⟩ := h
    exact hc
  | completion =>
    simp only [audioStep, mp3Callback, Option.some.injEq, Prod.mk.injEq] at h
    obtain ⟨rfl, _⟩ := h
    simp only [Bool.false_eq_true, if_false]
    split at hc <;> omega
  | tick clicks =>
    simp only [audioStep] at h
    cases hloop : loop T a.st clicks with
    | none => rw [hloop] at h; exact absurd h (by simp)
    | some r =>
      obtain ⟨s', e1⟩ := r
      rw [hloop] at h
      simp only [Option.some.injEq, Prod.mk.injEq] at h
      obtain ⟨rfl, _⟩ := h
      obtain ⟨p1, p2, p3⟩ := loop_plays T a.st s' clicks e1 hloop
      cases hp : playRequests e1 with
      | nil =>
        simp only [List.isEmpty_nil, if_true, List.length_nil, Nat.add_zero, p1]
        exact hc
      | cons t ts =>
        have hfalse : a.st.mp3IsPlaying = false := p3 (by rw [hp]; simp)
        have hlen : (t :: ts).length = 1 := by
          rw [hp] at p2
          have : 0 < (t :: ts).length := by simp
          omega
        rw [hfalse] at hc
        simp only [List.isEmpty_cons, Bool.false_eq_true, if_false, mp3Callback, if_true, hlen]
        simp only [Bool.false_eq_true, if_false] at hc
        omega

theorem audioRun_consistent (T : ModeTable) (a : AudioSlot) (evs : List AudioEvent)
    (hc : a.Consistent) (a' : AudioSlot) (e : List Effect)
    (h : audioRun T a evs = some (a', e)) : a'.Consistent := by
  induction evs generalizing a e with
  | nil =>
    simp only [audioRun, Option.some.injEq, Prod.mk.injEq] at h
    obtain ⟨rfl, _⟩ := h
    exact hc
  | cons ev evs ih =>
    simp only [audioRun] at h
    cases h1 : audioStep T a ev with
    | none => rw [h1] at h; exact absurd h (by simp)
    | some r1 =>
      obtain ⟨a1, e1⟩ := r1
      rw [h1] at h
      simp only at h
      cases h2 : audioRun T a1 evs with
      | none => rw [h2] at h; exact absurd h (by simp)
      | some r2 =>
        obtain ⟨a2, e2⟩ := r2
        rw [h2] at h
        simp only [Option.some.injEq, Prod.mk.injEq] at h
        obtain ⟨rfl, _⟩ := h
        exact ih a1 (audioStep_consistent T a a1 ev e1 hc h1) e2 h2

theorem audioRun_defined (T : ModeTable) (a : AudioSlot) (evs : List AudioEvent)
    (hc : a.st.songIndex < a.st.songs.length) : ∃ a' e, audioRun T a evs = some (a', e) := by
  induction evs generalizing a with
  | nil => exact ⟨a, [], rfl⟩
  | cons ev evs ih =>
    have hstep : ∃ a1 e1, audioStep T a ev = some (a1, e1) ∧
        a1.st.songIndex < a1.st.songs.length := by
      cases ev with
      | trigger => exact ⟨_, _, rfl, hc⟩
      | completion => exact ⟨_, _, rfl, hc⟩
      | tick clicks =>
        obtain ⟨s', e, h1, _, h3⟩ := loop_defined T a.st clicks hc
        refine ⟨{ st := if (playRequests e).isEmpty then s' else mp3Callback s' true,
                  inFlight := a.inFlight + (playRequests e).length }, e, ?_, ?_⟩
        · simp only [audioStep, h1]
        · simp only
          split <;> exact h3
    obtain ⟨a1, e1, h1, h2⟩ := hstep
    obtain ⟨a2, e2, h3⟩ := ih a1 h2
    exact ⟨a2, e1 ++ e2, by simp [audioRun, h1, h3]⟩

/-- C8: a pass of `loop()` makes at most one MP3 request (the sparkle track
or a track of the play list) and makes it only in a state where `mp3IsPlaying`
is false; hence, when an accepted request sets `mp3IsPlaying` until its
completion clears it, after every sequence of passes, detector callbacks and
completions that starts with no request in flight at most one request is in
flight, and one is in flight exactly when `mp3IsPlaying` is true. With the
cursor inside the play list every such sequence runs to its end. -/
theorem one_request_in_flight (T : ModeTable) (a : AudioSlot) (h0 : a.inFlight = 0)
    (hb : a.st.mp3IsPlaying = false) :
    (∀ s clicks s' e, loop T s clicks = some (s', e) →
      (playRequests e).length ≤ 1 ∧ (playRequests e ≠ [] → s.mp3IsPlaying = false)) ∧
    (∀ evs a' e, audioRun T a evs = some (a', e) →
      a'.inFlight ≤ 1 ∧ (a'.inFlight = 1 ↔ a'.st.mp3IsPlaying = true)) ∧
    (a.st.songIndex < a.st.songs.length → ∀ evs, ∃ a' e, audioRun T a evs = some (a', e)) := by
  refine ⟨fun s clicks s' e h => (loop_plays T s s' clicks e h).2, ?_,
    fun hc evs => audioRun_defined T a evs hc⟩
  intro evs a' e h
  have hc : a.Consistent := by
    unfold AudioSlot.Consistent
    rw [h0, hb]; rfl
  have hc' := audioRun_consistent T a evs hc a' e h
  unfold AudioSlot.Consistent at hc'
  cases hp : a'.st.mp3IsPlaying <;> rw [hp] at hc' <;> simp at hc' <;> simp [hc']

theorem one_request_in_flight_witness :
    ({ st := scenarioState, inFlight := 0 } : AudioSlot).inFlight = 0 ∧
    scenarioState.mp3IsPlaying = false ∧
    (audioRun scenarioModes { st := scenarioState, inFlight := 0 } audioScenario).map
        (fun r => (playRequests r.2, r.1.inFlight)) = some (["a.mp3", "super_star.mp3"], 1) ∧
    (∀ s clicks s' e, loop scenarioModes s clicks = some (s', e) →
      (playRequests e).length ≤ 1 ∧ (playRequests e ≠ [] → s.mp3IsPlaying = false)) ∧
    (∀ evs a' e, audioRun scenarioModes { st := scenarioState, inFlight := 0 } evs =
        some (a', e) →
      a'.inFlight ≤ 1 ∧ (a'.inFlight = 1 ↔ a'.st.mp3IsPlaying = true)) ∧
    (scenarioState.songIndex < scenarioState.songs.length →
      ∀ evs, ∃ a' e, audioRun scenarioModes { st := scenarioState, inFlight := 0 } evs =
        some (a', e)) :=
  ⟨rfl, by decide, by decide,
   one_request_in_flight scenarioModes { st := scenarioState, inFlight := 0 } rfl (by decide)⟩

/-! ## Long clicks and the play list -/

/-- A long click with nothing latched, no episode in progress and no track
playing. -/
theorem loop_long_idle (T : ModeTable) (s : State) (hq : Quiet s)
    (hp : s.mp3IsPlaying = false) (hc : s.songIndex < s.songs.length) :
    loop T s (-1) = some
      ({ s with songIndex := (s.songIndex + 1) % 4294967296 % s.songs.length },
       [Effect.buttonUpdate, Effect.watchdogRefresh, Effect.logInfo "SINGLE LONG click",
        Effect.mp3Play s.songs[s.songIndex] 100]) := by
  rw [loop_quiet T s (-1) hq.1 hq.2]
  simp [buttonDispatch, hp, List.getElem?_eq_getElem hc]

/-- A long click while a track plays and no episode is in progress. -/
theorem loop_long_busy (T : ModeTable) (s : State) (hl : s.localSparkleMode = false)
    (hp : s.mp3IsPlaying = true) :
    ∃ e, loop T s (-1) = some ({ s with sparkleMode := false }, e) ∧ playRequests e = [] := by
  obtain ⟨mode, sp, lsp, mp3, songs, idx, led, st⟩ := s
  simp only at hl hp
  subst hl
  subst hp
  cases sp
  · exact ⟨[Effect.buttonUpdate, Effect.watchdogRefresh, Effect.logInfo "SINGLE LONG click"],
      by simp [loop, sparkleStateMachine, buttonDispatch], rfl⟩
  · exact ⟨[Effect.buttonUpdate, Effect.watchdogRefresh,
      Effect.logInfo "MP3 is already playing, not starting sparkle mode",
      Effect.logInfo "SINGLE LONG click"],
      by simp [loop, sparkleStateMachine, buttonDispatch], rfl⟩

/-- C9 fails when a sparkle request is latched: no episode is in progress,
nothing plays, the play list is `a.mp3`, `b.mp3` with the cursor at 0, and the
pass with a long click requests the sparkle track, not `a.mp3`, and leaves the
cursor at 0, not at 1. -/
theorem long_click_dispatch_counterexample :
    latchedFreeState.localSparkleMode = false ∧ latchedFreeState.mp3IsPlaying = false ∧
    latchedFreeState.songs = ["a.mp3", "b.mp3"] ∧ latchedFreeState.songIndex = 0 ∧
    ∃ s' e, loop scenarioModes latchedFreeState (-1) = some (s', e) ∧
      playRequests e = ["super_star.mp3"] ∧ playRequests e ≠ ["a.mp3"] ∧
      s'.songIndex = 0 ∧ s'.songIndex ≠ (0 + 1) % 2 :=
  ⟨by decide, by decide, by decide, by decide, _, _, rfl,
   by decide, by decide, by decide, by decide⟩

/-- C9, as the code has it: outside a sparkle episode, with the cursor `c`
inside a play list of length `N`: when nothing plays and no sparkle request is
latched, the pass with a long click makes exactly one MP3 request, for
`songs[c]`, and sets the cursor to `(c + 1) mod N`; when a track plays, the
pass makes no MP3 request and leaves the cursor at `c`. -/
theorem long_click_dispatch (T : ModeTable) (s : State) (hl : s.localSparkleMode = false)
    (hc : s.songIndex < s.songs.length) (hN : s.songs.length < 4294967296) :
    (s.mp3IsPlaying = false → s.sparkleMode = false →
      ∃ s' e, loop T s (-1) = some (s', e) ∧ playRequests e = [s.songs[s.songIndex]] ∧
        s'.songIndex = (s.songIndex + 1) % s.songs.length ∧ s'.songs = s.songs ∧
        s'.mode = s.mode) ∧
    (s.mp3IsPlaying = true →
      ∃ s' e, loop T s (-1) = some (s', e) ∧ playRequests e = [] ∧
        s'.songIndex = s.songIndex ∧ s'.songs = s.songs ∧ s'.mode = s.mode) := by
  constructor
  · intro hp hs
    refine ⟨_, _, loop_long_idle T s ⟨hs, hl⟩ hp hc, rfl, ?_, rfl, rfl⟩
    show (s.songIndex + 1) % 4294967296 % s.songs.length = (s.songIndex + 1) % s.songs.length
    rw [Nat.mod_eq_of_lt (show s.songIndex + 1 < 4294967296 by omega)]
  · intro hp
    obtain ⟨e, h1, h2⟩ := loop_long_busy T s hl hp
    exact ⟨_, e, h1, h2, rfl, rfl, rfl⟩

theorem long_click_dispatch_witness :
    latchedBusyState.localSparkleMode = false ∧
    latchedBusyState.songIndex < latchedBusyState.songs.length ∧
    latchedBusyState.songs.length < 4294967296 ∧
    latchedBusyState.mp3IsPlaying = true ∧
    (loop scenarioModes scenarioState (-1)).map (fun r => (playRequests r.2, r.1.songIndex)) =
      some (["a.mp3"], 1) ∧
    ∃ s' e, loop scenarioModes latchedBusyState (-1) = some (s', e) ∧ playRequests e = [] ∧
      s'.songIndex = latchedBusyState.songIndex ∧ s'.songs = latchedBusyState.songs ∧
      s'.mode = latchedBusyState.mode :=
  ⟨by decide, by decide, by decide, by decide, by decide,
   (long_click_dispatch scenarioModes latchedBusyState (by decide) (by decide) (by decide)).2
     (by decide)⟩

theorem long_rounds_trace (T : ModeTable) (n : Nat) (s : State) (hq : Quiet s)
    (hp : s.mp3IsPlaying = false) (hc : s.songIndex < s.songs.length)
    (hN : s.songs.length < 4294967296) :
    ∃ s' e, run T s (longClickRounds n) = some (s', e) ∧
      (playRequests e).map some =
        (List.range n).map (fun i => s.songs[(s.songIndex + i) % s.songs.length]?) ∧
      s'.songIndex = (s.songIndex + n) % s.songs.length ∧ s'.songs = s.songs := by
  induction n generalizing s with
  | zero =>
    exact ⟨s, [], rfl, rfl, by rw [Nat.add_zero, Nat.mod_eq_of_lt hc], rfl⟩
  | succ n ih =>
    have hpos : 0 < s.songs.length := by omega
    have hwrap : (s.songIndex + 1) % 4294967296 % s.songs.length =
        (s.songIndex + 1) % s.songs.length := by
      rw [Nat.mod_eq_of_lt (show s.songIndex + 1 < 4294967296 by omega)]
    obtain ⟨s2, e2, i1, i2, i3, i4⟩ :=
      ih { s with songIndex := (s.songIndex + 1) % s.songs.length, mp3IsPlaying := false }
        hq rfl (Nat.mod_lt _ hpos) hN
    have hshift : ∀ i, ((s.songIndex + 1) % s.songs.length + i) % s.songs.length =
        (s.songIndex + (i + 1)) % s.songs.length := by
      intro i
      rw [Nat.mod_add_mod]
      congr 1; omega
    refine ⟨s2, [Effect.buttonUpdate, Effect.watchdogRefresh,
      Effect.logInfo "SINGLE LONG click", Effect.mp3Play s.songs[s.songIndex] 100] ++ e2,
      ?_, ?_, ?_, i4⟩
    · simp only [longClickRounds, run, step, loop_long_idle T s hq hp hc, mp3Callback, hwrap,
        List.nil_append]
      rw [i1]
    · rw [playRequests_append, List.map_append, i2, List.range_succ_eq_map, List.map_cons,
        List.map_map]
      simp only [playRequests, List.map_cons, List.map_nil, List.singleton_append,
        Nat.add_zero, Nat.mod_eq_of_lt hc, List.getElem?_eq_getElem hc]
      refine congrArg₂ List.cons rfl ?_
      apply List.map_congr_left
      intro i _
      simp only [Function.comp, hshift]
    · rw [i3]
      simp only
      rw [hshift]

/-- C10: for a play list of length `N ≥ 1` (the cursor `c` is inside it),
starting with nothing latched, no episode in progress and no track playing, `N`
long clicks, each dispatched after the previous track has finished, run to the
end, request the tracks at the indices `c, c+1, ..., c+N-1` modulo `N` in this
order, which are the indices `0 .. N-1` each once, and leave the cursor at `c`;
with one more long click the request number `N+1` is for the same track as the
first one. -/
theorem playlist_wraparound (T : ModeTable) (s : State) (hq : Quiet s)
    (hp : s.mp3IsPlaying = false) (hc : s.songIndex < s.songs.length)
    (hN : s.songs.length < 4294967296) :
    (∃ s' e, run T s (longClickRounds s.songs.length) = some (s', e) ∧
      (playRequests e).map some =
        (List.range s.songs.length).map
          (fun i => s.songs[(s.songIndex + i) % s.songs.length]?) ∧
      s'.songIndex = s.songIndex) ∧
    ((List.range s.songs.length).map (fun i => (s.songIndex + i) % s.songs.length)).Perm
      (List.range s.songs.length) ∧
    (∃ s' e, run T s (longClickRounds (s.songs.length + 1)) = some (s', e) ∧
      (playRequests e)[0]? = some s.songs[s.songIndex] ∧
      (playRequests e)[s.songs.length]? = some s.songs[s.songIndex] ∧
      (playRequests e).length = s.songs.length + 1) := by
  refine ⟨?_, rotation_perm _ _, ?_⟩
  · obtain ⟨s', e, h1, h2, h3, _⟩ := long_rounds_trace T s.songs.length s hq hp hc hN
    refine ⟨s', e, h1, h2, ?_⟩
    rw [h3, Nat.add_mod_right, Nat.mod_eq_of_lt hc]
  · obtain ⟨s', e, h1, h2, _, _⟩ := long_rounds_trace T (s.songs.length + 1) s hq hp hc hN
    have hlen : (playRequests e).length = s.songs.length + 1 := by
      have := congrArg List.length h2
      simpa using this
    have hget : ∀ i, i < s.songs.length + 1 →
        (playRequests e)[i]? = s.songs[(s.songIndex + i) % s.songs.length]? := by
      intro i hi
      have := congrArg (fun l => l[i]?) h2
      simp only [List.getElem?_map, List.getElem?_range hi, Option.map_some'] at this
      cases hpe : (playRequests e)[i]? with
      | none =>
        rw [hpe] at this
        simp at this
      | some t =>
        rw [hpe] at this
        simp only [Option.map_some', Option.some.injEq] at this
        exact this
    refine ⟨s', e, h1, ?_, ?_, hlen⟩
    · rw [hget 0 (by omega), Nat.add_zero, Nat.mod_eq_of_lt hc, List.getElem?_eq_getElem hc]
    · rw [hget _ (by omega), Nat.add_mod_right, Nat.mod_eq_of_lt hc,
        List.getElem?_eq_getElem hc]

theorem playlist_wraparound_witness :
    Quiet scenarioState ∧ scenarioState.mp3IsPlaying = false ∧
    scenarioState.songIndex < scenarioState.songs.length ∧
    scenarioState.songs.length < 4294967296 ∧
    scenarioState.songs = ["a.mp3", "b.mp3"] ∧ scenarioState.songIndex = 0 ∧
    (run scenarioModes scenarioState (longClickRounds 2)).map
        (fun r => (playRequests r.2, r.1.songIndex)) = some (["a.mp3", "b.mp3"], 0) ∧
    ((List.range scenarioState.songs.length).map
        (fun i => (scenarioState.songIndex + i) % scenarioState.songs.length)).Perm
      (List.range scenarioState.songs.length) :=
  ⟨by decide, by decide, by decide, by decide, by decide, by decide, by decide,
   (playlist_wraparound scenarioModes scenarioState (by decide) (by decide) (by decide)
      (by decide)).2.1⟩

/-! ## Long click on an empty play list -/

/-- C11: the code has no guard for an empty play list. Outside a sparkle
episode, with nothing latched and no track playing, the long click evaluates
`songs[songIndex]` on the empty vector and then `% songs.size()` with size 0:
the pass has no defined result, for every cursor and every other field; so it
is for the device booted without any track. -/
theorem empty_playlist_long_click_undefined (T : ModeTable) (mode : Int) (songIndex : Nat)
    (rgbStrip : Option Int) (settings : Settings) :
    loop T { mode := mode, sparkleMode := false, localSparkleMode := false,
             mp3IsPlaying := false, songs := [], songIndex := songIndex,
             rgbStrip := rgbStrip, settings := settings } (-1) = none ∧
    (boot scenarioModes [] []).1.songs = [] ∧
    loop scenarioModes (boot scenarioModes [] []).1 (-1) = none := by
  refine ⟨?_, by decide, by decide⟩
  simp [loop, sparkleStateMachine, buttonDispatch]

/-! ## Entering a sparkle episode -/

/-- The pass that starts an episode: a request is latched, no episode is in
progress and nothing plays. The click is ignored. -/
theorem loop_enter (T : ModeTable) (s : State) (clicks : Int) (hs : s.sparkleMode = true)
    (hl : s.localSparkleMode = false) (hp : s.mp3IsPlaying = false) :
    loop T s clicks = some
      ({ s with rgbStrip := some T.MODE_SPARKLE, localSparkleMode := true },
       [Effect.buttonUpdate, Effect.watchdogRefresh, Effect.setMode T.MODE_SPARKLE,
        Effect.mp3Play SUPER_STAR_MP3 100]) := by
  simp [loop, sparkleStateMachine, hs, hl, hp]

/-- C12 fails on the latch: the pass that starts the episode leaves
`sparkleMode` true. -/
theorem sparkle_entry_counterexample :
    latchedFreeState.sparkleMode = true ∧ latchedFreeState.localSparkleMode = false ∧
    latchedFreeState.mp3IsPlaying = false ∧
    ∃ s' e, loop scenarioModes latchedFreeState 0 = some (s', e) ∧
      s'.localSparkleMode = true ∧ s'.sparkleMode = true :=
  ⟨by decide, by decide, by decide, _, _, rfl, by decide, by decide⟩

/-- C12, as the code has it: with a request latched, no episode in progress and
nothing playing, the pass sets `localSparkleMode`, passes `MODE_SPARKLE` to
`rgbStrip->setMode`, makes exactly one MP3 request, for `super_star.mp3`, and
keeps `sparkleMode` true (the exit of the episode clears it); `mode`, the
settings, the cursor, the play list and `mp3IsPlaying` are unchanged and
nothing is written to the store, whatever the click. -/
theorem sparkle_entry (T : ModeTable) (s : State) (clicks : Int) (hs : s.sparkleMode = true)
    (hl : s.localSparkleMode = false) (hp : s.mp3IsPlaying = false) :
    ∃ s' e, loop T s clicks = some (s', e) ∧
      s'.localSparkleMode = true ∧ s'.rgbStrip = some T.MODE_SPARKLE ∧
      ledModes e = [T.MODE_SPARKLE] ∧ playRequests e = [SUPER_STAR_MP3] ∧
      s'.sparkleMode = true ∧
      s'.mode = s.mode ∧ s'.settings = s.settings ∧ storeWrites e = [] ∧
      s'.songIndex = s.songIndex ∧ s'.songs = s.songs ∧ s'.mp3IsPlaying = false :=
  ⟨_, _, loop_enter T s clicks hs hl hp, rfl, rfl, rfl, rfl, hs, rfl, rfl, rfl, rfl, rfl, hp⟩

theorem sparkle_entry_witness :
    latchedFreeState.sparkleMode = true ∧ latchedFreeState.localSparkleMode = false ∧
    latchedFreeState.mp3IsPlaying = false ∧
    ∃ s' e, loop scenarioModes latchedFreeState 1 = some (s', e) ∧
      s'.localSparkleMode = true ∧ s'.rgbStrip = some scenarioModes.MODE_SPARKLE ∧
      ledModes e = [scenarioModes.MODE_SPARKLE] ∧ playRequests e = [SUPER_STAR_MP3] ∧
      s'.sparkleMode = true ∧
      s'.mode = latchedFreeState.mode ∧ s'.settings = latchedFreeState.settings ∧
      storeWrites e = [] ∧
      s'.songIndex = latchedFreeState.songIndex ∧ s'.songs = latchedFreeState.songs ∧
      s'.mp3IsPlaying = false :=
  ⟨by decide, by decide, by decide,
   sparkle_entry scenarioModes latchedFreeState 1 (by decide) (by decide) (by decide)⟩

/-! ## Clicks without an action -/

/-- C16: with nothing latched and no episode in progress, a pass whose click
is neither the single click nor the long click (so a double click, a triple
click or no click) leaves the whole state unchanged (`mode`, the LED mode, the
settings, `mp3IsPlaying`, the cursor), writes nothing to the store, calls
neither `rgbStrip->setMode` nor `mp3Player.play`. -/
theorem reserved_clicks_inert (T : ModeTable) (s : State) (clicks : Int) (hq : Quiet s)
    (hc : clicks = 2 ∨ clicks = 3 ∨ (clicks ≠ 1 ∧ clicks ≠ -1)) :
    ∃ e, loop T s clicks = some (s, e) ∧ storeWrites e = [] ∧ playRequests e = [] ∧
      ledModes e = [] ∧ Effect.settingsStore ∉ e ∧ Effect.tonePlay ∉ e := by
  have hd : buttonDispatch T s 2 = some (s, [Effect.logInfo "DOUBLE click"]) := by
    simp [buttonDispatch]
  have ht : buttonDispatch T s 3 = some (s, [Effect.logInfo "TRIPLE click"]) := by
    simp [buttonDispatch]
  rw [loop_quiet T s clicks hq.1 hq.2]
  by_cases h2 : clicks = 2
  · subst h2
    rw [hd]
    exact ⟨[Effect.buttonUpdate, Effect.watchdogRefresh, Effect.logInfo "DOUBLE click"],
      rfl, rfl, rfl, rfl, by simp, by simp⟩
  · by_cases h3 : clicks = 3
    · subst h3
      rw [ht]
      exact ⟨[Effect.buttonUpdate, Effect.watchdogRefresh, Effect.logInfo "TRIPLE click"],
        rfl, rfl, rfl, rfl, by simp, by simp⟩
    · have h1 : clicks ≠ 1 ∧ clicks ≠ -1 := by
        rcases hc with hc | hc | hc
        · exact absurd hc h2
        · exact absurd hc h3
        · exact hc
      have hn : buttonDispatch T s clicks = some (s, []) := by
        simp [buttonDispatch, h1.1, h1.2, h2, h3]
      rw [hn]
      exact ⟨[Effect.buttonUpdate, Effect.watchdogRefresh], rfl, rfl, rfl, rfl,
        by simp, by simp⟩

theorem reserved_clicks_inert_witness :
    Quiet scenarioState ∧
    (∃ e, loop scenarioModes scenarioState 2 = some (scenarioState, e) ∧ storeWrites e = [] ∧
      playRequests e = [] ∧ ledModes e = [] ∧ Effect.settingsStore ∉ e ∧ Effect.tonePlay ∉ e) ∧
    loop scenarioModes scenarioState 3 = some (scenarioState,
      [Effect.buttonUpdate, Effect.watchdogRefresh, Effect.logInfo "TRIPLE click"]) ∧
    loop scenarioModes scenarioState 0 = some (scenarioState,
      [Effect.buttonUpdate, Effect.watchdogRefresh]) :=
  ⟨by decide, reserved_clicks_inert scenarioModes scenarioState 2 (by decide) (Or.inl rfl),
   by decide, by decide⟩

/-! ## The play list -/

theorem collectSongs_eq (assets songs : List String) :
    collectSongs assets songs = songs ++ assets.filter isPlaylistAsset := by
  induction assets generalizing songs with
  | nil => simp [collectSongs]
  | cons name rest ih =>
    unfold collectSongs
    by_cases h1 : endsWith name ".mp3" = true
    · by_cases h2 : name ≠ WELCOME_VOICE ∧ name ≠ SUPER_STAR_MP3
      · have hp : isPlaylistAsset name = true := by
          simp [isPlaylistAsset, h1, h2.1, h2.2]
        simp only [h1, h2, if_true, ne_eq, not_false_eq_true, and_self, ih,
          List.filter_cons, hp, List.append_assoc, List.singleton_append]
      · have hp : isPlaylistAsset name = false := by
          simp only [isPlaylistAsset, h1, Bool.true_and, Bool.and_eq_false_iff,
            decide_eq_false_iff_not]
          by_cases h3 : name ≠ WELCOME_VOICE
          · exact Or.inr (fun h4 => h2 ⟨h3, h4⟩)
          · exact Or.inl h3
        simp only [h1, h2, if_true, if_false, ih, List.filter_cons, hp]
        simp
    · have hp : isPlaylistAsset name = false := by
        simp [isPlaylistAsset, h1]
      simp only [h1, if_false, ih, List.filter_cons, hp]
      simp

theorem superStar_not_playlistAsset : isPlaylistAsset SUPER_STAR_MP3 = false := by decide

theorem loop_songs (T : ModeTable) (s s' : State) (clicks : Int) (e : List Effect)
    (h : loop T s clicks = some (s', e)) : s'.songs = s.songs := by
  obtain ⟨_, _, f3, _, _, _⟩ := sparkleStateMachine_frame T s
  rcases (loop_some_iff T s s' clicks e).mp h with ⟨_, e2, hb, _⟩ | ⟨_, rfl, _⟩
  · exact (buttonDispatch_obs T _ s' clicks e2 hb).2.2.2.1.trans f3
  · exact f3

theorem step_songs (T : ModeTable) (s s' : State) (ev : Event) (e : List Effect)
    (h : step T s ev = some (s', e)) : s'.songs = s.songs := by
  cases ev with
  | tick clicks => exact loop_songs T s s' clicks e h
  | sparkleDetected =>
    simp only [step, sparkleDetectedCallback, Option.some.injEq, Prod.mk.injEq] at h
    obtain ⟨rfl, _⟩ := h
    rfl
  | mp3State playing =>
    simp only [step, mp3Callback, Option.some.injEq, Prod.mk.injEq] at h
    obtain ⟨rfl, _⟩ := h
    rfl

theorem run_songs (T : ModeTable) (s s' : State) (evs : List Event) (e : List Effect)
    (h : run T s evs = some (s', e)) : s'.songs = s.songs := by
  induction evs generalizing s e with
  | nil =>
    simp only [run, Option.some.injEq, Prod.mk.injEq] at h
    obtain ⟨rfl, _⟩ := h
    rfl
  | cons ev evs ih =>
    obtain ⟨s1, e1, e2, h1, h2, _⟩ := run_cons_some T s s' ev evs e h
    exact (ih s1 e2 h2).trans (step_songs T s s1 ev e1 h1)

/-- C17: the play list that `setup()` builds from the empty vector is the list
of the asset names, in the order of the enumeration, that end in `.mp3` and
are neither `voice_welcome.mp3` nor `super_star.mp3` (`setup()` appends them to
the vector it finds); the play list never changes afterwards, it does not hold
`super_star.mp3`, and in every state reached from boot no click that is
dispatched, in particular no long click, requests `super_star.mp3`. -/
theorem playlist_construction (T : ModeTable) (flash : List (String × String))
    (assets : List String) :
    (boot T flash assets).1.songs = assets.filter isPlaylistAsset ∧
    (∀ s, (setup s assets).1.songs = s.songs ++ assets.filter isPlaylistAsset) ∧
    (∀ name, name ∈ (boot T flash assets).1.songs ↔
      name ∈ assets ∧ endsWith name ".mp3" = true ∧ name ≠ WELCOME_VOICE ∧
        name ≠ SUPER_STAR_MP3) ∧
    (∀ evs s e0, run T (boot T flash assets).1 evs = some (s, e0) →
      s.songs = assets.filter isPlaylistAsset ∧ SUPER_STAR_MP3 ∉ s.songs ∧
      ∀ clicks s' e, buttonDispatch T s clicks = some (s', e) →
        SUPER_STAR_MP3 ∉ playRequests e) := by
  have hsetup : ∀ s : State, (setup s assets).1.songs =
      s.songs ++ assets.filter isPlaylistAsset := by
    intro s
    unfold setup
    simp only [collectSongs_eq]
    split_ifs <;> rfl
  have hboot : (boot T flash assets).1.songs = assets.filter isPlaylistAsset := by
    unfold boot
    rw [hsetup]
    rfl
  have hnot : SUPER_STAR_MP3 ∉ assets.filter isPlaylistAsset := by
    intro hmem
    have := (List.mem_filter.mp hmem).2
    rw [superStar_not_playlistAsset] at this
    exact absurd this (by decide)
  refine ⟨hboot, hsetup, ?_, ?_⟩
  · intro name
    rw [hboot, List.mem_filter]
    simp only [isPlaylistAsset, Bool.and_eq_true, decide_eq_true_eq, and_assoc]
  · intro evs s e0 hrun
    have hs : s.songs = assets.filter isPlaylistAsset := by
      rw [run_songs T _ s evs e0 hrun, hboot]
    refine ⟨hs, by rw [hs]; exact hnot, ?_⟩
    intro clicks s' e hb hmem
    rcases (buttonDispatch_obs T s s' clicks e hb).2.2.2.2.2 with ⟨b6, _⟩ | ⟨_, _, t, g1, g2, _⟩
    · rw [b6] at hmem; exact absurd hmem (List.not_mem_nil _)
    · rw [g2, List.mem_singleton] at hmem
      have : t ∈ s.songs := List.getElem?_mem g1
      rw [← hmem, hs] at this
      exact hnot this

/-! ## The cursor -/

theorem run_cursor (T : ModeTable) (s : State) (evs : List Event)
    (hc : s.songIndex < s.songs.length) :
    ∃ s' e, run T s evs = some (s', e) ∧ s'.songs = s.songs ∧
      s'.songIndex < s'.songs.length := by
  induction evs generalizing s with
  | nil => exact ⟨s, [], rfl, rfl, hc⟩
  | cons ev evs ih =>
    obtain ⟨s1, e1, h1, h2, h3⟩ := step_defined T s ev hc
    obtain ⟨s2, e2, h4, h5, h6⟩ := ih s1 h3
    exact ⟨s2, e1 ++ e2, by simp [run, h1, h4], h5.trans h2, h6⟩

/-- C19: when the cursor is inside the play list before a pass of `loop()`, the
pass is defined (every access `songs[songIndex]` it makes is inside the vector),
whatever the click and the flags, it does not change the play list, and the
cursor is inside the play list after it; so it is after every sequence of
passes and callbacks, and in particular from the boot state, whose cursor is 0,
when the play list is not empty. -/
theorem cursor_bounds (T : ModeTable) (s : State) (hc : s.songIndex < s.songs.length) :
    (∀ clicks, ∃ s' e, loop T s clicks = some (s', e) ∧ s'.songs = s.songs ∧
      s'.songIndex < s'.songs.length) ∧
    (∀ evs, ∃ s' e, run T s evs = some (s', e) ∧ s'.songs = s.songs ∧
      s'.songIndex < s'.songs.length) ∧
    (∀ flash assets, (boot T flash assets).1.songs ≠ [] →
      (boot T flash assets).1.songIndex = 0 ∧
      ∀ evs, ∃ s' e, run T (boot T flash assets).1 evs = some (s', e) ∧
        s'.songIndex < s'.songs.length) := by
  refine ⟨fun clicks => loop_defined T s clicks hc, fun evs => run_cursor T s evs hc, ?_⟩
  intro flash assets hne
  have h0 : (boot T flash assets).1.songIndex = 0 := by
    unfold boot setup
    simp only
    split_ifs <;> rfl
  refine ⟨h0, fun evs => ?_⟩
  have hlt : (boot T flash assets).1.songIndex < (boot T flash assets).1.songs.length := by
    rw [h0]; exact List.length_pos.mpr hne
  obtain ⟨s', e, h1, _, h3⟩ := run_cursor T _ evs hlt
  exact ⟨s', e, h1, h3⟩

theorem cursor_bounds_witness :
    scenarioState.songIndex < scenarioState.songs.length ∧
    (run scenarioModes scenarioState
        [Event.tick (-1), Event.mp3State false, Event.tick (-1), Event.mp3State false,
         Event.tick (-1)]).map (fun r => r.1.songIndex) = some 1 ∧
    (∀ clicks, ∃ s' e, loop scenarioModes scenarioState clicks = some (s', e) ∧
      s'.songs = scenarioState.songs ∧ s'.songIndex < s'.songs.length) :=
  ⟨by decide, by decide, (cursor_bounds scenarioModes scenarioState (by decide)).1⟩

/-! ## A single click on a mode that is not selectable -/

/-- The pass that ends an episode: the click is dispatched on the state left by
the exit. -/
theorem loop_exit (T : ModeTable) (s : State) (clicks : Int) (hl : s.localSparkleMode = true)
    (hs : s.sparkleMode = true) (hp : s.mp3IsPlaying = false) :
    loop T s clicks =
      (buttonDispatch T
        { s with sparkleMode := false, localSparkleMode := false, rgbStrip := some s.mode }
        clicks).map
        (fun r => (r.1, [Effect.buttonUpdate, Effect.watchdogRefresh,
                         Effect.setMode s.mode] ++ r.2)) := by
  simp only [loop, sparkleStateMachine, hl, hs, hp]
  simp only [Bool.and_self, Bool.not_true, Bool.false_eq_true, if_false, Bool.not_false,
    if_true, Bool.and_false, Bool.and_true]
  split <;> rename_i hb <;> simp [hb]

/-- A pass inside an episode that does not end: nothing happens. -/
theorem loop_hold (T : ModeTable) (s : State) (clicks : Int) (hl : s.localSparkleMode = true)
    (h : s.mp3IsPlaying = true ∨ s.sparkleMode = false) :
    loop T s clicks = some (s, [Effect.buttonUpdate, Effect.watchdogRefresh]) := by
  rcases h with h | h
  · cases hs : s.sparkleMode <;> simp [loop, sparkleStateMachine, hl, h, hs]
  · simp [loop, sparkleStateMachine, hl, h]

/-- The LED strip and `mode` after a dispatched click: both untouched, or the
strip set to the new `mode`. -/
theorem buttonDispatch_led (T : ModeTable) (s s' : State) (clicks : Int) (e : List Effect)
    (h : buttonDispatch T s clicks = some (s', e)) :
    (s'.rgbStrip = s.rgbStrip ∧ s'.mode = s.mode ∧ ledModes e = []) ∨
    (s'.rgbStrip = some s'.mode ∧ ledModes e = [s'.mode]) := by
  unfold buttonDispatch at h
  split_ifs at h with h1 h2 h3 h4 h5
  · simp only [Option.some.injEq, Prod.mk.injEq] at h
    obtain ⟨rfl, rfl⟩ := h
    exact Or.inr ⟨rfl, rfl⟩
  · simp only [Option.some.injEq, Prod.mk.injEq] at h; obtain ⟨rfl, rfl⟩ := h
    exact Or.inl ⟨rfl, rfl, rfl⟩
  · simp only [Option.some.injEq, Prod.mk.injEq] at h; obtain ⟨rfl, rfl⟩ := h
    exact Or.inl ⟨rfl, rfl, rfl⟩
  · cases hg : s.songs[s.songIndex]? with
    | none => rw [hg] at h; exact absurd h (by simp)
    | some t =>
      rw [hg] at h
      simp only [Option.some.injEq, Prod.mk.injEq] at h
      obtain ⟨rfl, rfl⟩ := h
      exact Or.inl ⟨rfl, rfl, rfl⟩
  · simp only [Option.some.injEq, Prod.mk.injEq] at h; obtain ⟨rfl, rfl⟩ := h
    exact Or.inl ⟨rfl, rfl, rfl⟩
  · simp only [Option.some.injEq, Prod.mk.injEq] at h; obtain ⟨rfl, rfl⟩ := h
    exact Or.inl ⟨rfl, rfl, rfl⟩

/-- The sparkle part of a pass keeps both invariants of the display, and when
it leaves the state in an episode it has either changed nothing or just entered
the episode. -/
theorem sparkleStateMachine_inv (T : ModeTable) (s : State) :
    (EpisodeInv T s → EpisodeInv T (sparkleStateMachine T s).1) ∧
    (DisplayInv s → DisplayInv (sparkleStateMachine T s).1) ∧
    ((sparkleStateMachine T s).1.localSparkleMode = true →
      (s.localSparkleMode = true ∧ sparkleStateMachine T s = (s, [])) ∨
      (s.localSparkleMode = false ∧
        ledModes (sparkleStateMachine T s).2 = [T.MODE_SPARKLE])) := by
  obtain ⟨mode, sp, lsp, mp3, songs, idx, led, st⟩ := s
  cases sp <;> cases lsp <;> cases mp3 <;>
    simp [sparkleStateMachine, EpisodeInv, DisplayInv, ledModes]

theorem loop_inv (T : ModeTable) (s s' : State) (clicks : Int) (e : List Effect)
    (h : loop T s clicks = some (s', e)) :
    (EpisodeInv T s → EpisodeInv T s') ∧ (DisplayInv s → DisplayInv s') ∧
    (s'.localSparkleMode = true →
      (s.localSparkleMode = true ∧ s' = s ∧ ledModes e = []) ∨
      (s.localSparkleMode = false ∧ ledModes e = [T.MODE_SPARKLE])) := by
  obtain ⟨i1, i2, i3⟩ := sparkleStateMachine_inv T s
  rcases (loop_some_iff T s s' clicks e).mp h with ⟨hl, e2, hb, rfl⟩ | ⟨hl, rfl, rfl⟩
  · obtain ⟨_, b2, _, _, _, _⟩ := buttonDispatch_obs T _ s' clicks e2 hb
    have hl' : s'.localSparkleMode = false := b2.trans hl
    refine ⟨?_, ?_, ?_⟩
    · intro _ hc; rw [hl'] at hc; exact absurd hc (by decide)
    · intro hd _ m hm
      have hmid := i2 hd hl
      rcases buttonDispatch_led T _ s' clicks e2 hb with ⟨g1, g2, _⟩ | ⟨g1, _⟩
      · rw [g1] at hm; rw [g2]; exact hmid m hm
      · rw [g1] at hm; exact (Option.some.inj hm).symm
    · intro hc; rw [hl'] at hc; exact absurd hc (by decide)
  · refine ⟨i1, i2, ?_⟩
    intro hc
    rcases i3 hc with ⟨g1, g2⟩ | ⟨g1, g2⟩
    · left
      refine ⟨g1, by rw [g2], ?_⟩
      rw [g2]; rfl
    · right
      refine ⟨g1, ?_⟩
      rw [ledModes_append, g2]; rfl

theorem step_inv (T : ModeTable) (s s' : State) (ev : Event) (e : List Effect)
    (h : step T s ev = some (s', e)) :
    (EpisodeInv T s → EpisodeInv T s') ∧ (DisplayInv s → DisplayInv s') ∧
    (s'.localSparkleMode = true →
      (s.localSparkleMode = true ∧ ledModes e = []) ∨
      (s.localSparkleMode = false ∧ ledModes e = [T.MODE_SPARKLE])) := by
  cases ev with
  | tick clicks =>
    obtain ⟨i1, i2, i3⟩ := loop_inv T s s' clicks e h
    refine ⟨i1, i2, fun hc => ?_⟩
    rcases i3 hc with ⟨g1, _, g3⟩ | g
    · exact Or.inl ⟨g1, g3⟩
    · exact Or.inr g
  | sparkleDetected =>
    simp only [step, sparkleDetectedCallback, Option.some.injEq, Prod.mk.injEq] at h
    obtain ⟨rfl, rfl⟩ := h
    refine ⟨fun hi hc => ⟨rfl, (hi hc).2⟩, fun hd => hd, fun hc => Or.inl ⟨hc, rfl⟩⟩
  | mp3State playing =>
    simp only [step, mp3Callback, Option.some.injEq, Prod.mk.injEq] at h
    obtain ⟨rfl, rfl⟩ := h
    exact ⟨fun hi => hi, fun hd => hd, fun hc => Or.inl ⟨hc, rfl⟩⟩

theorem run_inv (T : ModeTable) (s s' : State) (evs : List Event) (e : List Effect)
    (h : run T s evs = some (s', e)) :
    (EpisodeInv T s → EpisodeInv T s') ∧ (DisplayInv s → DisplayInv s') ∧
    (s'.localSparkleMode = true →
      (s.localSparkleMode = true ∧ ledModes e = []) ∨
      (ledModes e).getLast? = some T.MODE_SPARKLE) := by
  induction evs generalizing s e with
  | nil =>
    simp only [run, Option.some.injEq, Prod.mk.injEq] at h
    obtain ⟨rfl, rfl⟩ := h
    exact ⟨fun hi => hi, fun hd => hd, fun hc => Or.inl ⟨hc, rfl⟩⟩
  | cons ev evs ih =>
    obtain ⟨s1, e1, e2, h1, h2, rfl⟩ := run_cons_some T s s' ev evs e h
    obtain ⟨i1, i2, i3⟩ := step_inv T s s1 ev e1 h1
    obtain ⟨j1, j2, j3⟩ := ih s1 e2 h2
    refine ⟨fun hi => j1 (i1 hi), fun hd => j2 (i2 hd), fun hc => ?_⟩
    rw [ledModes_append]
    rcases j3 hc with ⟨g1, g2⟩ | g
    · rw [g2, List.append_nil]
      rcases i3 g1 with ⟨k1, k2⟩ | ⟨_, k2⟩
      · exact Or.inl ⟨k1, k2⟩
      · right; rw [k2]; rfl
    · right
      cases hl2 : ledModes e2 with
      | nil => rw [hl2] at g; exact absurd g (by simp)
      | cons x xs =>
        rw [hl2] at g
        rw [List.getLast?_append_of_ne_nil _ (List.cons_ne_nil x xs)]
        exact g

/-- C14: from every state outside an episode, in particular from the boot
state, after every sequence of passes of `loop()` with any clicks, detector
callbacks and MP3 callbacks, `localSparkleMode` true implies that the last
value passed to `rgbStrip->setMode` is `MODE_SPARKLE`; with the cursor inside
the play list every such sequence runs to its end. -/
theorem transient_display_invariant (T : ModeTable) (s0 : State)
    (h0 : s0.localSparkleMode = false) :
    (∀ evs s e, run T s0 evs = some (s, e) → s.localSparkleMode = true →
      s.rgbStrip = some T.MODE_SPARKLE ∧ (ledModes e).getLast? = some T.MODE_SPARKLE) ∧
    (∀ flash assets, (boot T flash assets).1.localSparkleMode = false) ∧
    (s0.songIndex < s0.songs.length → ∀ evs, ∃ s e, run T s0 evs = some (s, e)) := by
  refine ⟨?_, ?_, fun hc evs => run_defined T s0 evs hc⟩
  · intro evs s e hrun hl
    obtain ⟨i1, _, i3⟩ := run_inv T s0 s evs e hrun
    have hinv0 : EpisodeInv T s0 := by
      intro hc; rw [h0] at hc; exact absurd hc (by decide)
    refine ⟨(i1 hinv0 hl).2, ?_⟩
    rcases i3 hl with ⟨g1, _⟩ | g
    · rw [h0] at g1; exact absurd g1 (by decide)
    · exact g
  · intro flash assets
    unfold boot setup
    simp only
    split_ifs <;> rfl

theorem transient_display_invariant_witness :
    scenarioState.localSparkleMode = false ∧
    (run scenarioModes scenarioState
        [Event.tick 1, Event.sparkleDetected, Event.tick 1, Event.mp3State true,
         Event.tick 1]).map (fun r => (r.1.localSparkleMode, r.1.rgbStrip, ledModes r.2)) =
      some (true, some 3, [2, 3]) ∧
    (∀ evs s e, run scenarioModes scenarioState evs = some (s, e) →
      s.localSparkleMode = true →
      s.rgbStrip = some scenarioModes.MODE_SPARKLE ∧
      (ledModes e).getLast? = some scenarioModes.MODE_SPARKLE) :=
  ⟨by decide, by decide,
   (transient_display_invariant scenarioModes scenarioState (by decide)).1⟩

/-- An event that leaves the state in the episode changes neither `mode`, nor
the settings, nor the LED strip, nor the latch. -/
theorem step_in_episode (T : ModeTable) (s s' : State) (ev : Event) (e : List Effect)
    (hl : s.localSparkleMode = true) (hs : s.sparkleMode = true)
    (h : step T s ev = some (s', e)) (hl' : s'.localSparkleMode = true) :
    s'.sparkleMode = true ∧ s'.mode = s.mode ∧ s'.rgbStrip = s.rgbStrip ∧
    s'.settings = s.settings ∧ s'.songs = s.songs ∧ s'.songIndex = s.songIndex := by
  cases ev with
  | sparkleDetected =>
    simp only [step, sparkleDetectedCallback, Option.some.injEq, Prod.mk.injEq] at h
    obtain ⟨rfl, _⟩ := h
    exact ⟨rfl, rfl, rfl, rfl, rfl, rfl⟩
  | mp3State playing =>
    simp only [step, mp3Callback, Option.some.injEq, Prod.mk.injEq] at h
    obtain ⟨rfl, _⟩ := h
    exact ⟨hs, rfl, rfl, rfl, rfl, rfl⟩
  | tick clicks =>
    simp only [step] at h
    cases hp : s.mp3IsPlaying
    · rw [loop_exit T s clicks hl hs hp, Option.map_eq_some'] at h
      obtain ⟨⟨s2, e2⟩, hb, heq⟩ := h
      simp only [Prod.mk.injEq] at heq
      obtain ⟨rfl, _⟩ := heq
      have h2l : s2.localSparkleMode = false := (buttonDispatch_obs T _ s2 clicks e2 hb).2.1
      rw [h2l] at hl'
      exact absurd hl' (by decide)
    · rw [loop_hold T s clicks hl (Or.inl hp)] at h
      simp only [Option.some.injEq, Prod.mk.injEq] at h
      obtain ⟨rfl, _⟩ := h
      exact ⟨hs, rfl, rfl, rfl, rfl, rfl⟩

theorem run_in_episode (T : ModeTable) (s s' : State) (evs : List Event) (e : List Effect)
    (hl : s.localSparkleMode = true) (hs : s.sparkleMode = true)
    (h : run T s evs = some (s', e)) (hin : ∀ b ∈ episodeFlags T s evs, b = true) :
    s'.localSparkleMode = true ∧ s'.sparkleMode = true ∧ s'.mode = s.mode ∧
    s'.rgbStrip = s.rgbStrip ∧ s'.settings = s.settings ∧ s'.songs = s.songs ∧
    s'.songIndex = s.songIndex := by
  induction evs generalizing s e with
  | nil =>
    simp only [run, Option.some.injEq, Prod.mk.injEq] at h
    obtain ⟨rfl, _⟩ := h
    exact ⟨hl, hs, rfl, rfl, rfl, rfl, rfl⟩
  | cons ev evs ih =>
    obtain ⟨s1, e1, e2, h1, h2, _⟩ := run_cons_some T s s' ev evs e h
    simp only [episodeFlags, h1, List.mem_cons, forall_eq_or_imp] at hin
    obtain ⟨hl1, hrest⟩ := hin
    obtain ⟨k1, k2, k3, k4, k5, k6⟩ := step_in_episode T s s1 ev e1 hl hs h1 hl1
    obtain ⟨j1, j2, j3, j4, j5, j6, j7⟩ := ih s1 e2 hl1 k1 h2 hrest
    exact ⟨j1, j2, j3.trans k2, j4.trans k3, j5.trans k4, j6.trans k5, j7.trans k6⟩

/-- The state in which a pass leaves an episode that it ends. -/
theorem loop_exit_obs (T : ModeTable) (s s' : State) (clicks : Int) (e : List Effect)
    (hl : s.localSparkleMode = true) (hs : s.sparkleMode = true)
    (hp : s.mp3IsPlaying = false) (h : loop T s clicks = some (s', e)) :
    Quiet s' ∧ (ledModes e).head? = some s.mode ∧ s'.rgbStrip = some s'.mode ∧
    (∀ m ∈ ledModes e, m = s.mode ∨ m = nextMode T s.mode) ∧
    (∀ t ∈ playRequests e, t ∈ s.songs) ∧
    (s'.mode = s.mode ∨ s'.mode = nextMode T s.mode) := by
  rw [loop_exit T s clicks hl hs hp, Option.map_eq_some'] at h
  obtain ⟨⟨s2, e2⟩, hb, heq⟩ := h
  simp only [Prod.mk.injEq] at heq
  obtain ⟨rfl, rfl⟩ := heq
  obtain ⟨b1, b2, _, _, b5, b6⟩ := buttonDispatch_obs T _ s2 clicks e2 hb
  have hmode := buttonDispatch_mode T _ s2 clicks e2 hb
  refine ⟨⟨b1, b2⟩, ?_, ?_, ?_, ?_, ?_⟩
  · rw [ledModes_append]; rfl
  · rcases buttonDispatch_led T _ s2 clicks e2 hb with ⟨g1, g2, _⟩ | ⟨g1, _⟩
    · rw [g1, g2]
    · exact g1
  · intro m hm
    rw [ledModes_append] at hm
    simp only [ledModes, List.singleton_append, List.mem_cons] at hm
    rcases hm with hm | hm
    · exact Or.inl hm
    · exact Or.inr (b5 m hm)
  · intro t ht
    rw [playRequests_append] at ht
    simp only [playRequests, List.nil_append] at ht
    rcases b6 with ⟨b6, _⟩ | ⟨_, _, t', g1, g2, _⟩
    · rw [b6] at ht; exact absurd ht (List.not_mem_nil _)
    · rw [g2, List.mem_singleton] at ht
      rw [ht]
      exact List.getElem?_mem g1
  · rcases hmode with ⟨g1, _⟩ | ⟨_, g2, _⟩
    · exact Or.inl g1
    · exact Or.inr g2

/-- C13: let an episode begin in the state `s1` (a request latched, nothing
playing) and let `s2` be a state of that episode, reached through passes and
callbacks that all leave `localSparkleMode` true. Then `mode` in `s2` is the
`mode` of `s1` and the LED strip is on `MODE_SPARKLE`. While the track plays, a
pass changes nothing. Once it has finished, the pass without a click clears
`localSparkleMode` and passes the `mode` of `s1` to `rgbStrip->setMode`, and
every pass, whatever its click, leaves the episode with that call made first
and the LED strip on `mode`. From boot, the LED strip outside an episode, once
set, shows `mode`, so the exit puts it back on what it showed before. -/
theorem sparkle_exit_restores (T : ModeTable) (s1 : State) (c0 : Int) (mid : List Event)
    (s2 : State) (e : List Effect) (hs : s1.sparkleMode = true)
    (hl : s1.localSparkleMode = false) (hp : s1.mp3IsPlaying = false)
    (hrun : run T s1 (Event.tick c0 :: mid) = some (s2, e))
    (hin : ∀ b ∈ episodeFlags T s1 (Event.tick c0 :: mid), b = true) :
    s2.localSparkleMode = true ∧ s2.mode = s1.mode ∧ s2.rgbStrip = some T.MODE_SPARKLE ∧
    (s2.mp3IsPlaying = true → ∀ clicks,
      loop T s2 clicks = some (s2, [Effect.buttonUpdate, Effect.watchdogRefresh])) ∧
    (s2.mp3IsPlaying = false →
      loop T s2 0 = some
        ({ s2 with sparkleMode := false, localSparkleMode := false,
                   rgbStrip := some s1.mode },
         [Effect.buttonUpdate, Effect.watchdogRefresh, Effect.setMode s1.mode]) ∧
      ∀ clicks s3 e3, loop T s2 clicks = some (s3, e3) →
        s3.localSparkleMode = false ∧ (ledModes e3).head? = some s1.mode ∧
        s3.rgbStrip = some s3.mode) ∧
    (∀ flash assets evs s e0, run T (boot T flash assets).1 evs = some (s, e0) →
      s.localSparkleMode = false → ∀ m, s.rgbStrip = some m → m = s.mode) := by
  obtain ⟨sE, e1, e2, h1, h2, _⟩ := run_cons_some T s1 s2 (Event.tick c0) mid e hrun
  simp only [episodeFlags, h1, List.mem_cons, forall_eq_or_imp] at hin
  obtain ⟨hlE, hrest⟩ := hin
  simp only [step, loop_enter T s1 c0 hs hl hp, Option.some.injEq, Prod.mk.injEq] at h1
  obtain ⟨rfl, _⟩ := h1
  obtain ⟨j1, j2, j3, j4, _, _, _⟩ :=
    run_in_episode T { s1 with rgbStrip := some T.MODE_SPARKLE, localSparkleMode := true }
      s2 mid e2 rfl hs h2 hrest
  refine ⟨j1, j3, j4, ?_, ?_, ?_⟩
  · intro hp2 clicks
    exact loop_hold T s2 clicks j1 (Or.inl hp2)
  · intro hp2
    constructor
    · rw [loop_exit T s2 0 j1 j2 hp2]
      simp only at j3
      simp [buttonDispatch, j3]
    · intro clicks s3 e3 h3
      obtain ⟨q1, q2, q3, _⟩ := loop_exit_obs T s2 s3 clicks e3 j1 j2 hp2 h3
      simp only at j3
      exact ⟨q1.2, by rw [q2, j3], q3⟩
  · intro flash assets evs s e0 hr
    have hboot : DisplayInv (boot T flash assets).1 := by
      intro _ m hm
      obtain ⟨b1, b2, _⟩ := setup_mode (initialState T flash) assets
      unfold boot at hm ⊢
      rw [b2] at hm
      rw [b1]
      split_ifs at hm ⊢ with hlen
      exact (Option.some.inj hm).symm
    exact (run_inv T _ s evs e0 hr).2.1 hboot

theorem sparkle_exit_restores_witness :
    latchedFreeState.sparkleMode = true ∧ latchedFreeState.localSparkleMode = false ∧
    latchedFreeState.mp3IsPlaying = false ∧
    (∃ s2 e, run scenarioModes latchedFreeState
        [Event.tick 0, Event.mp3State true, Event.tick 1, Event.sparkleDetected,
         Event.mp3State false] = some (s2, e) ∧
      (∀ b ∈ episodeFlags scenarioModes latchedFreeState
          [Event.tick 0, Event.mp3State true, Event.tick 1, Event.sparkleDetected,
           Event.mp3State false], b = true) ∧
      s2.localSparkleMode = true ∧ s2.mode = latchedFreeState.mode ∧
      s2.rgbStrip = some scenarioModes.MODE_SPARKLE ∧ s2.mp3IsPlaying = false ∧
      (loop scenarioModes s2 0).map (fun r => (r.1.localSparkleMode, r.1.rgbStrip)) =
        some (false, some 1)) :=
  ⟨by decide, by decide, by decide, _, _, rfl, by decide,
   (sparkle_exit_restores scenarioModes latchedFreeState 0
      [Event.mp3State true, Event.tick 1, Event.sparkleDetected, Event.mp3State false]
      _ _ (by decide) (by decide) (by decide) rfl (by decide)).1,
   (sparkle_exit_restores scenarioModes latchedFreeState 0
      [Event.mp3State true, Event.tick 1, Event.sparkleDetected, Event.mp3State false]
      _ _ (by decide) (by decide) (by decide) rfl (by decide)).2.1,
   (sparkle_exit_restores scenarioModes latchedFreeState 0
      [Event.mp3State true, Event.tick 1, Event.sparkleDetected, Event.mp3State false]
      _ _ (by decide) (by decide) (by decide) rfl (by decide)).2.2.1,
   by decide, by decide⟩

/-- C18: let the detector callback fire in a state with `localSparkleMode`
true, followed by any passes and callbacks, further detector callbacks
included, that all leave `localSparkleMode` true. The pass that then ends the
episode leaves `sparkleMode` false, and as long as the detector callback does
not fire again no pass starts an episode: both flags stay false,
`MODE_SPARKLE` is not passed to `rgbStrip->setMode`, and the sparkle track is
not requested (the play list of `setup()` does not hold it). Once the track has
finished, the pass without a click is such a pass. -/
theorem trigger_during_episode (T : ModeTable) (hT : T.MODE_SNOWFLAKE ≠ T.MODE_SPARKLE)
    (s : State) (mid : List Event) (s1 : State) (e1 : List Effect)
    (hl : s.localSparkleMode = true)
    (hrun : run T s (Event.sparkleDetected :: mid) = some (s1, e1))
    (hin : ∀ b ∈ episodeFlags T s (Event.sparkleDetected :: mid), b = true) :
    (s1.mp3IsPlaying = false →
      ∃ s2 e2, loop T s1 0 = some (s2, e2) ∧ s2.localSparkleMode = false) ∧
    (∀ clicks s2 e2, loop T s1 clicks = some (s2, e2) → s2.localSparkleMode = false →
      s2.sparkleMode = false ∧
      ∀ evs, (∀ ev ∈ evs, ev.isTrigger = false) →
        ∀ s3 e3, run T s2 evs = some (s3, e3) →
          s3.localSparkleMode = false ∧ s3.sparkleMode = false ∧
          T.MODE_SPARKLE ∉ ledModes e3 ∧
          (SUPER_STAR_MP3 ∉ s.songs → SUPER_STAR_MP3 ∉ playRequests e3)) := by
  obtain ⟨sT, eT, e2, h1, h2, _⟩ := run_cons_some T s s1 Event.sparkleDetected mid e1 hrun
  simp only [episodeFlags, h1, List.mem_cons, forall_eq_or_imp] at hin
  obtain ⟨_, hrest⟩ := hin
  simp only [step, sparkleDetectedCallback, Option.some.injEq, Prod.mk.injEq] at h1
  obtain ⟨rfl, _⟩ := h1
  obtain ⟨j1, j2, _, _, _, j6, _⟩ :=
    run_in_episode T { s with sparkleMode := true } s1 mid e2 hl rfl h2 hrest
  constructor
  · intro hp
    have h0 : loop T s1 0 = some
        ({ s1 with sparkleMode := false, localSparkleMode := false, rgbStrip := some s1.mode },
         [Effect.buttonUpdate, Effect.watchdogRefresh, Effect.setMode s1.mode]) := by
      rw [loop_exit T s1 0 j1 j2 hp]
      simp [buttonDispatch]
    exact ⟨_, _, h0, rfl⟩
  · intro clicks s2 e2' hloop hout
    have hp : s1.mp3IsPlaying = false := by
      cases hp : s1.mp3IsPlaying
      · rfl
      · rw [loop_hold T s1 clicks j1 (Or.inl hp)] at hloop
        simp only [Option.some.injEq, Prod.mk.injEq] at hloop
        obtain ⟨rfl, _⟩ := hloop
        rw [j1] at hout
        exact absurd hout (by decide)
    obtain ⟨q1, _⟩ := loop_exit_obs T s1 s2 clicks e2' j1 j2 hp hloop
    refine ⟨q1.1, ?_⟩
    intro evs hev s3 e3 hr3
    obtain ⟨r1, r2, r3⟩ := run_quiet T hT s2 evs q1 hev s3 e3 hr3
    refine ⟨r1.2, r1.1, r2, ?_⟩
    intro hnot hmem
    have := r3 _ hmem
    rw [loop_songs T s1 s2 clicks e2' hloop, j6] at this
    exact hnot this

theorem trigger_during_episode_witness :
    scenarioModes.MODE_SNOWFLAKE ≠ scenarioModes.MODE_SPARKLE ∧
    episodeEndState.localSparkleMode = true ∧
    (∃ s1 e1, run scenarioModes episodeEndState
        [Event.sparkleDetected, Event.mp3State true, Event.tick 1, Event.sparkleDetected,
         Event.mp3State false] = some (s1, e1) ∧
      (∀ b ∈ episodeFlags scenarioModes episodeEndState
          [Event.sparkleDetected, Event.mp3State true, Event.tick 1, Event.sparkleDetected,
           Event.mp3State false], b = true) ∧
      s1.mp3IsPlaying = false ∧
      (∃ s2 e2, loop scenarioModes s1 0 = some (s2, e2) ∧ s2.localSparkleMode = false) ∧
      (run scenarioModes s1 [Event.tick 0, Event.tick 0, Event.tick (-1)]).map
          (fun r => (r.1.sparkleMode, r.1.localSparkleMode, ledModes r.2, playRequests r.2)) =
        some (false, false, [1], ["a.mp3"])) :=
  ⟨by decide, by decide, _, _, rfl, by decide, by decide,
   (trigger_during_episode scenarioModes (by decide) episodeEndState
      [Event.mp3State true, Event.tick 1, Event.sparkleDetected, Event.mp3State false]
      _ _ (by decide) rfl (by decide)).1 (by decide),
   by decide⟩

/-! ## Bursts of the detector callback -/

theorem run_cons_of (T : ModeTable) (s s1 s2 : State) (ev : Event) (evs : List Event)
    (e1 e2 : List Effect) (h1 : step T s ev = some (s1, e1))
    (h2 : run T s1 evs = some (s2, e2)) : run T s (ev :: evs) = some (s2, e1 ++ e2) := by
  simp only [run, h1, h2]

theorem run_append_some (T : ModeTable) (s s' : State) (a b : List Event) (e : List Effect)
    (h : run T s (a ++ b) = some (s', e)) :
    ∃ s1 e1 e2, run T s a = some (s1, e1) ∧ run T s1 b = some (s', e2) ∧ e = e1 ++ e2 := by
  induction a generalizing s e with
  | nil => exact ⟨s, [], e, rfl, h, rfl⟩
  | cons ev evs ih =>
    rw [List.cons_append] at h
    obtain ⟨s1, e1, e2, h1, h2, rfl⟩ := run_cons_some T s s' ev (evs ++ b) e h
    obtain ⟨s2, e3, e4, h3, h4, rfl⟩ := ih s1 e2 h2
    exact ⟨s2, e1 ++ e3, e4, by simp [run, h1, h3], h4, by simp⟩

theorem run_append_of (T : ModeTable) (s s1 s2 : State) (a b : List Event)
    (e1 e2 : List Effect) (ha : run T s a = some (s1, e1)) (hb : run T s1 b = some (s2, e2)) :
    run T s (a ++ b) = some (s2, e1 ++ e2) := by
  induction a generalizing s e1 with
  | nil =>
    simp only [run, Option.some.injEq, Prod.mk.injEq] at ha
    obtain ⟨rfl, rfl⟩ := ha
    simpa using hb
  | cons ev evs ih =>
    obtain ⟨s3, e3, e4, h1, h2, rfl⟩ := run_cons_some T s s1 ev evs e1 ha
    rw [List.cons_append]
    simp only [run, h1, ih s3 e4 h2, List.append_assoc]

/-- Any number of detector callbacks in a row leave the state that one of them
leaves. -/
theorem run_triggers (T : ModeTable) (s : State) (n : Nat) :
    ∃ e, run T s (List.replicate (n + 1) Event.sparkleDetected) =
        some ((sparkleDetectedCallback s).1, e) ∧
      ledModes e = [] ∧ playRequests e = [] := by
  induction n generalizing s with
  | zero =>
    exact ⟨[Effect.logInfo "Sparkle Detected!"], by simp [run, step, sparkleDetectedCallback],
      rfl, rfl⟩
  | succ n ih =>
    obtain ⟨e, h1, h2, h3⟩ := ih (sparkleDetectedCallback s).1
    refine ⟨[Effect.logInfo "Sparkle Detected!"] ++ e, ?_, ?_, ?_⟩
    · have hstep : step T s Event.sparkleDetected = some ((sparkleDetectedCallback s).1,
          [Effect.logInfo "Sparkle Detected!"]) := rfl
      have hidem : (sparkleDetectedCallback (sparkleDetectedCallback s).1).1 =
          (sparkleDetectedCallback s).1 := rfl
      rw [hidem] at h1
      rw [List.replicate_succ]
      exact run_cons_of T s _ _ Event.sparkleDetected _ _ _ hstep h1
    · rw [ledModes_append, h2]; rfl
    · rw [playRequests_append, h3]; rfl

/-- The pass that drops a latched request while a track plays. -/
theorem loop_drop_obs (T : ModeTable) (hT : T.MODE_SNOWFLAKE ≠ T.MODE_SPARKLE) (s : State)
    (clicks : Int) (hs : s.sparkleMode = true) (hl : s.localSparkleMode = false)
    (hp : s.mp3IsPlaying = true) :
    ∃ s' e, loop T s clicks = some (s', e) ∧ Quiet s' ∧ T.MODE_SPARKLE ∉ ledModes e ∧
      playRequests e = [] ∧ s'.songs = s.songs := by
  have hssm : sparkleStateMachine T s = ({ s with sparkleMode := false },
      [Effect.logInfo "MP3 is already playing, not starting sparkle mode"]) := by
    simp [sparkleStateMachine, hs, hl, hp]
  obtain ⟨s', e2, hb⟩ :=
    buttonDispatch_busy_defined T { s with sparkleMode := false } clicks hp
  obtain ⟨b1, b2, _, b4, b5, b6⟩ := buttonDispatch_obs T _ s' clicks e2 hb
  have hloop : loop T s clicks = some (s', [Effect.buttonUpdate, Effect.watchdogRefresh] ++
      [Effect.logInfo "MP3 is already playing, not starting sparkle mode"] ++ e2) := by
    refine (loop_some_iff T s s' clicks _).mpr (Or.inl ⟨?_, e2, ?_, ?_⟩)
    · rw [hssm]; exact hl
    · rw [hssm]; exact hb
    · rw [hssm]
  have hplays : playRequests e2 = [] := by
    rcases b6 with ⟨b6, _⟩ | ⟨_, b6, _⟩
    · exact b6
    · rw [show ({ s with sparkleMode := false } : State).mp3IsPlaying = s.mp3IsPlaying from rfl,
        hp] at b6
      exact absurd b6 (by decide)
  refine ⟨s', _, hloop, ⟨b1, b2.trans hl⟩, ?_, ?_, b4⟩
  · rw [ledModes_append]
    simp only [List.cons_append, List.nil_append, ledModes]
    exact fun hmem => nextMode_ne_sparkle T hT s.mode (b5 _ hmem).symm
  · rw [playRequests_append, hplays]
    rfl

/-- In an episode or after it, with a `mode` other than `MODE_SPARKLE`. -/
theorem step_after_entry (T : ModeTable) (hT : T.MODE_SNOWFLAKE ≠ T.MODE_SPARKLE)
    (s s' : State) (ev : Event) (e : List Effect)
    (hP : (s.localSparkleMode = true ∧ s.sparkleMode = true) ∨ Quiet s)
    (hm : s.mode ≠ T.MODE_SPARKLE) (hev : ev.isTrigger = false)
    (h : step T s ev = some (s', e)) :
    ((s'.localSparkleMode = true ∧ s'.sparkleMode = true) ∨ Quiet s') ∧
    s'.mode ≠ T.MODE_SPARKLE ∧ s'.songs = s.songs ∧ T.MODE_SPARKLE ∉ ledModes e ∧
    ∀ t ∈ playRequests e, t ∈ s.songs := by
  have hmode' : s'.mode ≠ T.MODE_SPARKLE := by
    rcases step_mode T s s' ev e h with ⟨g, _⟩ | ⟨g, _⟩
    · rw [g]; exact hm
    · rw [g]; exact nextMode_ne_sparkle T hT s.mode
  rcases hP with ⟨hl, hs⟩ | hq
  · cases ev with
    | sparkleDetected => exact absurd hev (by decide)
    | mp3State playing =>
      simp only [step, mp3Callback, Option.some.injEq, Prod.mk.injEq] at h
      obtain ⟨rfl, rfl⟩ := h
      exact ⟨Or.inl ⟨hl, hs⟩, hm, rfl, by simp [ledModes], by simp [playRequests]⟩
    | tick clicks =>
      simp only [step] at h
      cases hp : s.mp3IsPlaying
      · obtain ⟨q1, _, _, q4, q5, _⟩ := loop_exit_obs T s s' clicks e hl hs hp h
        refine ⟨Or.inr q1, hmode', loop_songs T s s' clicks e h, ?_, q5⟩
        intro hmem
        rcases q4 _ hmem with g | g
        · exact hm g.symm
        · exact nextMode_ne_sparkle T hT s.mode g.symm
      · rw [loop_hold T s clicks hl (Or.inl hp)] at h
        simp only [Option.some.injEq, Prod.mk.injEq] at h
        obtain ⟨rfl, rfl⟩ := h
        exact ⟨Or.inl ⟨hl, hs⟩, hm, rfl, by simp [ledModes], by simp [playRequests]⟩
  · obtain ⟨q1, q2, q3, q4⟩ := step_quiet T hT s s' ev e hq hev h
    exact ⟨Or.inr q1, hmode', q2, q3, q4⟩

theorem run_after_entry (T : ModeTable) (hT : T.MODE_SNOWFLAKE ≠ T.MODE_SPARKLE)
    (s s' : State) (evs : List Event) (e : List Effect)
    (hP : (s.localSparkleMode = true ∧ s.sparkleMode = true) ∨ Quiet s)
    (hm : s.mode ≠ T.MODE_SPARKLE) (hev : ∀ ev ∈ evs, ev.isTrigger = false)
    (h : run T s evs = some (s', e)) :
    T.MODE_SPARKLE ∉ ledModes e ∧ ∀ t ∈ playRequests e, t ∈ s.songs := by
  induction evs generalizing s e with
  | nil =>
    simp only [run, Option.some.injEq, Prod.mk.injEq] at h
    obtain ⟨_, rfl⟩ := h
    exact ⟨by simp [ledModes], by simp [playRequests]⟩
  | cons ev evs ih =>
    obtain ⟨s1, e1, e2, h1, h2, rfl⟩ := run_cons_some T s s' ev evs e h
    obtain ⟨p1, p2, p3, p4, p5⟩ :=
      step_after_entry T hT s s1 ev e1 hP hm (hev ev (List.mem_cons_self _ _)) h1
    obtain ⟨i1, i2⟩ := ih s1 e2 p1 p2 (fun x hx => hev x (List.mem_cons_of_mem _ hx)) h2
    refine ⟨?_, ?_⟩
    · rw [ledModes_append, List.mem_append]
      exact fun hmem => hmem.elim p4 i1
    · intro t ht
      rw [playRequests_append, List.mem_append] at ht
      rcases ht with ht | ht
      · exact p5 t ht
      · rw [← p3]; exact i2 t ht

/-- C15 fails while a track plays: the detector callback fires twice in a
state outside an episode with `mp3IsPlaying` true, and the passes that follow
make no call of `rgbStrip->setMode` and no MP3 request: no episode starts. -/
theorem trigger_idempotence_counterexample :
    busyState.localSparkleMode = false ∧ busyState.mp3IsPlaying = true ∧
    ∃ s' e, run scenarioModes busyState
        [Event.sparkleDetected, Event.sparkleDetected, Event.tick 0, Event.mp3State false,
         Event.tick 0, Event.tick 0] = some (s', e) ∧
      ledModes e = [] ∧ playRequests e = [] ∧
      (ledModes e).count scenarioModes.MODE_SPARKLE ≠ 1 ∧
      (playRequests e).count SUPER_STAR_MP3 ≠ 1 ∧ s'.localSparkleMode = false :=
  ⟨by decide, by decide, _, _, rfl, by decide, by decide, by decide, by decide, by decide⟩

/-- C15, as the code has it: any number of detector callbacks in a row leave
the state that one of them leaves. Let them fire in a state outside an episode
whose `mode` is not `MODE_SPARKLE` and whose play list does not hold the
sparkle track, and let passes and MP3 callbacks follow, without a further
detector callback. When nothing plays, the first pass starts an episode and all
the passes together pass `MODE_SPARKLE` to `rgbStrip->setMode` exactly once and
request `super_star.mp3` exactly once. When a track plays, the request is
dropped: no pass does either. -/
theorem trigger_idempotence (T : ModeTable) (hT : T.MODE_SNOWFLAKE ≠ T.MODE_SPARKLE)
    (s : State) (hl : s.localSparkleMode = false) (hm : s.mode ≠ T.MODE_SPARKLE)
    (hsongs : SUPER_STAR_MP3 ∉ s.songs) :
    (∀ (s0 : State) (n : Nat), ∃ e,
      run T s0 (List.replicate (n + 1) Event.sparkleDetected) =
        some ((sparkleDetectedCallback s0).1, e)) ∧
    (s.mp3IsPlaying = false → ∀ (n : Nat) (clicks : Int) (evs : List Event),
      (∀ ev ∈ evs, ev.isTrigger = false) →
      (∃ s1 e1, run T s (List.replicate (n + 1) Event.sparkleDetected ++ [Event.tick clicks]) =
          some (s1, e1) ∧ s1.localSparkleMode = true) ∧
      ∀ s' e, run T s (List.replicate (n + 1) Event.sparkleDetected ++
          Event.tick clicks :: evs) = some (s', e) →
        (ledModes e).count T.MODE_SPARKLE = 1 ∧
        (playRequests e).count SUPER_STAR_MP3 = 1) ∧
    (s.mp3IsPlaying = true → ∀ (n : Nat) (clicks : Int) (evs : List Event),
      (∀ ev ∈ evs, ev.isTrigger = false) →
      ∀ s' e, run T s (List.replicate (n + 1) Event.sparkleDetected ++
          Event.tick clicks :: evs) = some (s', e) →
        T.MODE_SPARKLE ∉ ledModes e ∧ SUPER_STAR_MP3 ∉ playRequests e ∧
        s'.localSparkleMode = false) := by
  refine ⟨fun s0 n => ?_, ?_, ?_⟩
  · obtain ⟨e, h, _⟩ := run_triggers T s0 n
    exact ⟨e, h⟩
  · intro hp n clicks evs hev
    obtain ⟨eT, hT1, hT2, hT3⟩ := run_triggers T s n
    have henter := loop_enter T (sparkleDetectedCallback s).1 clicks rfl hl hp
    constructor
    · refine ⟨_, _, run_append_of T s _ _ _ _ eT _ hT1
        (run_cons_of T _ _ _ (Event.tick clicks) [] _ [] henter rfl), rfl⟩
    · intro s' e hrun
      obtain ⟨s1, e1, e2, h1, h2, rfl⟩ := run_append_some T s s' _ _ e hrun
      rw [hT1] at h1
      simp only [Option.some.injEq, Prod.mk.injEq] at h1
      obtain ⟨rfl, rfl⟩ := h1
      obtain ⟨sE, eE, e3, h3, h4, rfl⟩ := run_cons_some T _ s' _ evs e2 h2
      simp only [step, henter, Option.some.injEq, Prod.mk.injEq] at h3
      obtain ⟨rfl, rfl⟩ := h3
      obtain ⟨r1, r2⟩ := run_after_entry T hT
        { (sparkleDetectedCallback s).1 with
            rgbStrip := some T.MODE_SPARKLE, localSparkleMode := true }
        s' evs e3 (Or.inl ⟨rfl, rfl⟩) hm hev h4
      have r3 : SUPER_STAR_MP3 ∉ playRequests e3 := fun hmem => hsongs (r2 _ hmem)
      constructor
      · rw [ledModes_append, ledModes_append, hT2]
        simp only [ledModes, List.nil_append, List.singleton_append, List.count_cons_self,
          List.count_eq_zero_of_not_mem r1]
      · rw [playRequests_append, playRequests_append, hT3]
        simp only [playRequests, List.nil_append, List.singleton_append, List.count_cons_self,
          List.count_eq_zero_of_not_mem r3]
  · intro hp n clicks evs hev s' e hrun
    obtain ⟨eT, hT1, hT2, hT3⟩ := run_triggers T s n
    obtain ⟨s1, e1, e2, h1, h2, rfl⟩ := run_append_some T s s' _ _ e hrun
    rw [hT1] at h1
    simp only [Option.some.injEq, Prod.mk.injEq] at h1
    obtain ⟨rfl, rfl⟩ := h1
    obtain ⟨sD, eD, e3, h3, h4, rfl⟩ := run_cons_some T _ s' _ evs e2 h2
    obtain ⟨sD', eD', d1, d2, d3, d4, d5⟩ :=
      loop_drop_obs T hT (sparkleDetectedCallback s).1 clicks rfl hl hp
    simp only [step, d1, Option.some.injEq, Prod.mk.injEq] at h3
    obtain ⟨rfl, rfl⟩ := h3
    obtain ⟨q1, q2, q3⟩ := run_quiet T hT _ evs d2 hev s' e3 h4
    refine ⟨?_, ?_, q1.2⟩
    · rw [ledModes_append, ledModes_append, hT2, List.nil_append, List.mem_append]
      exact fun hmem => hmem.elim d3 q2
    · rw [playRequests_append, playRequests_append, hT3, d4]
      simp only [List.nil_append]
      intro hmem
      have := q3 _ hmem
      rw [d5] at this
      exact hsongs this

theorem trigger_idempotence_witness :
    scenarioModes.MODE_SNOWFLAKE ≠ scenarioModes.MODE_SPARKLE ∧
    scenarioState.localSparkleMode = false ∧
    scenarioState.mode ≠ scenarioModes.MODE_SPARKLE ∧
    SUPER_STAR_MP3 ∉ scenarioState.songs ∧ scenarioState.mp3IsPlaying = false ∧
    (run scenarioModes scenarioState
        [Event.sparkleDetected, Event.sparkleDetected, Event.tick 0, Event.mp3State true,
         Event.tick 0, Event.mp3State false, Event.tick 0, Event.tick 0]).map
        (fun r => (ledModes r.2, playRequests r.2)) = some ([3, 1], ["super_star.mp3"]) ∧
    (∀ (s0 : State) (n : Nat), ∃ e,
      run scenarioModes s0 (List.replicate (n + 1) Event.sparkleDetected) =
        some ((sparkleDetectedCallback s0).1, e)) :=
  ⟨by decide, by decide, by decide, by decide, by decide, by decide,
   (trigger_idempotence scenarioModes (by decide) scenarioState (by decide) (by decide)
      (by decide)).1⟩

end Snowflake
